import Mathlib

/-!
Verification of the jexagent-backend task orchestrator.

Shallow embedding of the core of the repository:
* `ProgressCalculator.get_progress` (app/services/task_service.py)
* `truncate_utf8` and the AI-message emission (app/services/task_service.py)
* the per-task sequence-id counter of `SocketManager` (app/services/socket_manager.py)
* the question clamp of `phase1_generate_inquiry` and the answer processing
  `phase1_process_answers` (app/services/langgraph/nodes/phase1_inquiry.py)
* the planning delta of `phase2_planning` (app/services/langgraph/nodes/phase2_planning.py)
* the collaboration round functions `phase3_debate_mode` / `phase3_review_mode`
  (.history/app/services/langgraph/nodes/phase3_collaboration_20251014172407.py)
  and the collaboration loop of `TaskService._process_task_async`
* the retry decorator and circuit breaker of `AIClient`
  (app/services/ai_client_fixed.py) and the failover of `AIManager`
  (app/services/ai_manager_fixed.py)
* the `IntermediateStateSchema` whitelist validation and
  `TaskService.submit_answers_without_processing` (app/services/task_service.py)

Python dictionaries become Lean records or association lists, upstream model
calls become explicit oracle parameters, floats become rationals, and Python
string values stay `String` / lists of Unicode code points where byte-level
behaviour matters.
-/

namespace JexAgent

/-- Python `int(x)` applied to a float/rational: truncation toward zero. -/
def pyInt (q : ℚ) : Int :=
  if 0 ≤ q then ⌊q⌋ else ⌈q⌉

/-- The static phase table `ProgressCalculator.PHASES` of task_service.py. -/
def progressPhases : String → Option (Nat × Nat)
  | "evaluation" => some (0, 10)
  | "inquiry" => some (10, 20)
  | "planning" => some (20, 40)
  | "collaboration" => some (40, 70)
  | "integration" => some (70, 90)
  | "finalization" => some (90, 100)
  | _ => none

/-- Model of `ProgressCalculator.get_progress`: unknown phase gives 0, otherwise
`int(start + (end - start) * phase_progress)`. -/
def get_progress (phase : String) (phase_progress : ℚ) : Int :=
  match progressPhases phase with
  | none => 0
  | some (s, e) => pyInt ((s : ℚ) + ((e : ℚ) - (s : ℚ)) * phase_progress)

/-- Modelled from the spec: `progress(phase, fraction) = round(start + (end-start)*fraction)`,
the rounding variant the spec describes, for comparison with `get_progress`. -/
def get_progress_spec_round (phase : String) (phase_progress : ℚ) : Int :=
  match progressPhases phase with
  | none => 0
  | some (s, e) => round ((s : ℚ) + ((e : ℚ) - (s : ℚ)) * phase_progress)

theorem progressPhases_cases (phase : String) (s e : Nat)
    (h : progressPhases phase = some (s, e)) :
    (s, e) = (0, 10) ∨ (s, e) = (10, 20) ∨ (s, e) = (20, 40) ∨
    (s, e) = (40, 70) ∨ (s, e) = (70, 90) ∨ (s, e) = (90, 100) := by
  unfold progressPhases at h
  split at h <;> simp_all

theorem pyInt_eq_floor (q : ℚ) (h : 0 ≤ q) : pyInt q = ⌊q⌋ := by
  simp [pyInt, h]

theorem get_progress_table (phase : String) (s e : Nat) (f : ℚ)
    (h : progressPhases phase = some (s, e)) :
    get_progress phase f = pyInt ((s : ℚ) + ((e : ℚ) - (s : ℚ)) * f) := by
  simp [get_progress, h]

theorem get_progress_bounds (phase : String) (s e : Nat) (f : ℚ)
    (h : progressPhases phase = some (s, e)) (h0 : 0 ≤ f) (h1 : f ≤ 1) :
    (s : Int) ≤ get_progress phase f ∧ get_progress phase f ≤ (e : Int) := by
  have hse : s ≤ e ∧ e ≤ 100 := by
    rcases progressPhases_cases phase s e h with h' | h' | h' | h' | h' | h' <;> simp_all
  have hes : (s : ℚ) ≤ (e : ℚ) := by exact_mod_cast hse.1
  have hlow : (s : ℚ) ≤ (s : ℚ) + ((e : ℚ) - (s : ℚ)) * f := by nlinarith
  have hhigh : (s : ℚ) + ((e : ℚ) - (s : ℚ)) * f ≤ (e : ℚ) := by nlinarith
  have hq0 : (0 : ℚ) ≤ (s : ℚ) + ((e : ℚ) - (s : ℚ)) * f := by
    have : (0 : ℚ) ≤ (s : ℚ) := by positivity
    linarith
  rw [get_progress_table phase s e f h, pyInt_eq_floor _ hq0]
  constructor
  · exact_mod_cast Int.le_floor.mpr (by exact_mod_cast hlow)
  · have := Int.floor_le ((s : ℚ) + ((e : ℚ) - (s : ℚ)) * f)
    have : (⌊(s : ℚ) + ((e : ℚ) - (s : ℚ)) * f⌋ : ℚ) ≤ (e : ℚ) := le_trans this hhigh
    exact_mod_cast this

theorem get_progress_le_100 (phase : String) (f : ℚ) (h0 : 0 ≤ f) (h1 : f ≤ 1) :
    0 ≤ get_progress phase f ∧ get_progress phase f ≤ 100 := by
  cases hp : progressPhases phase with
  | none => simp [get_progress, hp]
  | some se =>
    obtain ⟨s, e⟩ := se
    have hb := get_progress_bounds phase s e f hp h0 h1
    have hse : s ≤ e ∧ e ≤ 100 := by
      rcases progressPhases_cases phase s e hp with h' | h' | h' | h' | h' | h' <;> simp_all
    constructor
    · have : (0 : Int) ≤ (s : Int) := by positivity
      linarith [hb.1]
    · have : (e : Int) ≤ 100 := by exact_mod_cast hse.2
      linarith [hb.2]

/-- C9: the claim says `get_progress` rounds; the code truncates with `int()`.
At phase "planning" and fraction 0.99 the code returns `int(20 + 20*0.99) =
int(39.8) = 39` while rounding gives 40. -/
theorem progress_truncates_not_rounds :
    get_progress ("planning") (99 / 100) = 39 ∧
    get_progress_spec_round ("planning") (99 / 100) = 40 ∧
    ¬ get_progress ("planning") (99 / 100) = get_progress_spec_round ("planning") (99 / 100) := by
  have h1 : get_progress ("planning") (99 / 100) = 39 := by
    show pyInt ((20 : ℚ) + ((40 : ℚ) - (20 : ℚ)) * (99 / 100)) = 39
    rw [pyInt, if_pos (by norm_num)]
    rw [Int.floor_eq_iff]
    norm_num
  have h2 : get_progress_spec_round ("planning") (99 / 100) = 40 := by
    show round ((20 : ℚ) + ((40 : ℚ) - (20 : ℚ)) * (99 / 100)) = 40
    rw [round_eq, Int.floor_eq_iff]
    norm_num
  exact ⟨h1, h2, by rw [h1, h2]; decide⟩

/-- C9 (amended): for every phase in the static table and fraction in [0,1],
`get_progress` returns the truncation `int(start + (end - start) * fraction)`
(equal to the floor, since the value is non-negative) of the interpolation over
the table's [start, end] range — truncation, not rounding. -/
theorem get_progress_eq_floor_interpolation (phase : String) (s e : Nat) (f : ℚ)
    (h : progressPhases phase = some (s, e)) (h0 : 0 ≤ f) (h1 : f ≤ 1) :
    get_progress phase f = ⌊(s : ℚ) + ((e : ℚ) - (s : ℚ)) * f⌋ := by
  have hse : s ≤ e ∧ e ≤ 100 := by
    rcases progressPhases_cases phase s e h with h' | h' | h' | h' | h' | h' <;> simp_all
  have hes : (s : ℚ) ≤ (e : ℚ) := by exact_mod_cast hse.1
  have hq0 : (0 : ℚ) ≤ (s : ℚ) + ((e : ℚ) - (s : ℚ)) * f := by
    have h5 : (0 : ℚ) ≤ (s : ℚ) := by positivity
    nlinarith
  rw [get_progress_table phase s e f h, pyInt_eq_floor _ hq0]

theorem get_progress_eq_floor_interpolation_witness :
    progressPhases ("planning") = some (20, 40) ∧ (0 : ℚ) ≤ 1 ∧ (1 : ℚ) ≤ 1 ∧
    get_progress ("planning") 1 = ⌊(20 : ℚ) + ((40 : ℚ) - (20 : ℚ)) * 1⌋ :=
  ⟨by decide, by decide, by decide,
    get_progress_eq_floor_interpolation ("planning") 20 40 1 (by decide) (by decide) (by decide)⟩

/-- C10: `get_progress` is total and bounded. For every phase string and
fraction in [0,1] it returns 0 when the phase is not in the static table, and
a value inside the phase's [start, end] range — hence always within [0,100]. -/
theorem get_progress_total_bounded (phase : String) (f : ℚ) (h0 : 0 ≤ f) (h1 : f ≤ 1) :
    (progressPhases phase = none → get_progress phase f = 0) ∧
    0 ≤ get_progress phase f ∧ get_progress phase f ≤ 100 ∧
    ∀ s e, progressPhases phase = some (s, e) →
      (s : Int) ≤ get_progress phase f ∧ get_progress phase f ≤ (e : Int) := by
  refine ⟨fun hn => by simp [get_progress, hn], (get_progress_le_100 phase f h0 h1).1,
    (get_progress_le_100 phase f h0 h1).2, fun s e hs => get_progress_bounds phase s e f hs h0 h1⟩

theorem get_progress_total_bounded_witness :
    (0 : ℚ) ≤ 0 ∧ (0 : ℚ) ≤ 1 ∧
    ((progressPhases ("collaboration") = none → get_progress ("collaboration") 0 = 0) ∧
      0 ≤ get_progress ("collaboration") 0 ∧ get_progress ("collaboration") 0 ≤ 100 ∧
      ∀ s e, progressPhases ("collaboration") = some (s, e) →
        (s : Int) ≤ get_progress ("collaboration") 0 ∧
        get_progress ("collaboration") 0 ≤ (e : Int)) :=
  ⟨by decide, by decide, get_progress_total_bounded ("collaboration") 0 (by decide) (by decide)⟩

/-! ### Progress fan-out: sequence ids (socket_manager.py) and the
progress emissions of `TaskService._process_task_async` (task_service.py).
The append to the bounded ring buffer and the per-subscriber dispatch do not
affect ids or values and are not modelled here. -/

/-- Model of `SocketManager._get_next_sequence_id` in the in-process mode: a per-task
counter map defaulting to 0; returns the current value, then increments. -/
def getNextSequenceId (task_id : String) (counters : String → Nat) :
    Nat × (String → Nat) :=
  (counters task_id, fun t => if t = task_id then counters task_id + 1 else counters t)

/-- A progress item as built by `SocketManager.emit_progress` (the wall-clock
timestamp `ts` is not modelled). -/
structure ProgressItem where
  phase : String
  progress : Int
  message : String
  sequence_id : Nat
  task_id : String
  deriving DecidableEq, Repr

/-- The sequencing part of `SocketManager.emit_progress`. -/
def emit_progress (task_id phase : String) (progress : Int) (message : String)
    (counters : String → Nat) : ProgressItem × (String → Nat) :=
  let idc := getNextSequenceId task_id counters
  ({ phase := phase, progress := progress, message := message,
     sequence_id := idc.1, task_id := task_id }, idc.2)

/-- Emitting a list of (phase, progress, message) events for one task, in order. -/
def emitAll (task_id : String) :
    List (String × Int × String) → (String → Nat) → List ProgressItem
  | [], _ => []
  | e :: rest, counters =>
    let r := emit_progress task_id e.1 e.2.1 e.2.2 counters
    r.1 :: emitAll task_id rest r.2

/-- The constant `TaskService.MAX_COLLABORATION_ROUNDS`. -/
def MAX_COLLABORATION_ROUNDS : Nat := 10

/-- The fraction `min(current_round / MAX_COLLABORATION_ROUNDS, 1.0)` from the loop of
`_process_task_async`. -/
def collabFraction (current_round : Nat) : ℚ :=
  min ((current_round : ℚ) / (MAX_COLLABORATION_ROUNDS : ℚ)) 1

/-- The per-round progress emissions of the collaboration loop, threading
`state["_last_progress"] = max(state["_last_progress"], progress)`; returns
the events together with the final `_last_progress`. -/
def roundProgressEmits : Nat → Nat → Int → List (String × Int × String) × Int
  | _, 0, last => ([], last)
  | k, n + 1, last =>
    let p := max last (get_progress ("collaboration") (collabFraction k))
    let rest := roundProgressEmits (k + 1) n p
    ((("协作"), p, ("第" ++ toString k ++ "轮协作完成")) :: rest.1, rest.2)

/-- The progress events emitted by `TaskService._process_task_async` for a run
whose collaboration loop executes `r` rounds: planning at fraction 0,
collaboration at fraction 0, one event per round, integration at fraction 0.5,
and the final literal 100. -/
def processEmissions (mode : String) (r : Nat) : List (String × Int × String) :=
  let p1 : Int := max 0 (get_progress ("planning") 0)
  let p2 : Int := max p1 (get_progress ("collaboration") 0)
  let rounds := roundProgressEmits 1 r p2
  let pI : Int := max rounds.2 (get_progress ("integration") (1 / 2))
  [(("规划"), p1, ("正在制定协作策略...")),
   (("协作"), p2, ("多AI" ++ (if mode = "debate" then "辩论" else "审查") ++ "模式启动..."))] ++
  rounds.1 ++
  [(("整合"), pI, ("正在生成综合报告...")), (("完成"), 100, ("分析完成！"))]

theorem emitAll_sequence_ids (task_id : String) (evts : List (String × Int × String))
    (counters : String → Nat) :
    (emitAll task_id evts counters).map (fun it => it.sequence_id) =
      List.range' (counters task_id) evts.length := by
  induction evts generalizing counters with
  | nil => simp [emitAll]
  | cons e rest ih =>
    simp only [emitAll, emit_progress, getNextSequenceId, List.map_cons, List.length_cons,
      List.range'_succ]
    rw [ih]
    simp

theorem get_progress_lim100 (phase : String) (f : ℚ) (h0 : 0 ≤ f) (h1 : f ≤ 1) :
    get_progress phase f ≤ 100 :=
  (get_progress_le_100 phase f h0 h1).2

theorem collabFraction_bounds (k : Nat) : 0 ≤ collabFraction k ∧ collabFraction k ≤ 1 := by
  constructor
  · apply le_min _ (by norm_num)
    positivity
  · exact min_le_right _ _

theorem roundProgressEmits_chain (n : Nat) : ∀ (k : Nat) (last : Int), last ≤ 100 →
    List.Chain' (fun a b => a ≤ b)
      (last :: ((roundProgressEmits k n last).1.map (fun e => e.2.1) ++
        [max (roundProgressEmits k n last).2 (get_progress ("integration") (1 / 2)), 100])) := by
  induction n with
  | zero =>
    intro k last h
    have hI : get_progress ("integration") (1 / 2) ≤ 100 :=
      get_progress_lim100 _ _ (by norm_num) (by norm_num)
    simp only [roundProgressEmits, List.map_nil, List.nil_append]
    exact List.chain'_cons.mpr ⟨le_max_left _ _,
      List.chain'_cons.mpr ⟨max_le h hI, List.chain'_singleton _⟩⟩
  | succ n ih =>
    intro k last h
    have hc := collabFraction_bounds k
    have hk : get_progress ("collaboration") (collabFraction k) ≤ 100 :=
      get_progress_lim100 _ _ hc.1 hc.2
    simp only [roundProgressEmits, List.map_cons, List.cons_append]
    exact List.chain'_cons.mpr ⟨le_max_left _ _, ih (k + 1) _ (max_le h hk)⟩

/-- C3: for every task run, the sequence ids assigned by `emit_progress` are
the dense sequence 0, 1, 2, ... with no gaps (starting at 0 in the in-process
mode), and the progress values carried by the progress events emitted by
`_process_task_async` are monotonically non-decreasing. -/
theorem progress_ids_dense_and_values_monotone (task_id mode : String) (r : Nat) :
    ((emitAll task_id (processEmissions mode r) (fun _ => 0)).map (fun it => it.sequence_id) =
      List.range (processEmissions mode r).length) ∧
    List.Chain' (fun a b => a ≤ b) ((processEmissions mode r).map (fun e => e.2.1)) := by
  constructor
  · rw [emitAll_sequence_ids, List.range_eq_range']
  · have h0 : (0 : ℚ) ≤ 0 := le_refl 0
    have h1 : (0 : ℚ) ≤ 1 := by norm_num
    have hp1 : max 0 (get_progress ("planning") 0) ≤ 100 :=
      max_le (by norm_num) (get_progress_lim100 _ _ h0 h1)
    have hp2 : max (max 0 (get_progress ("planning") 0)) (get_progress ("collaboration") 0) ≤ 100 :=
      max_le hp1 (get_progress_lim100 _ _ h0 h1)
    have hch := roundProgressEmits_chain r 1
      (max (max 0 (get_progress ("planning") 0)) (get_progress ("collaboration") 0)) hp2
    simp only [processEmissions, List.map_append, List.map_cons, List.map_nil,
      List.cons_append, List.nil_append]
    exact List.chain'_cons.mpr ⟨le_max_left _ _, hch⟩

/-! ### Phase 1: inquiry question clamp (phase1_inquiry.py, lines 78–91) -/

structure Question where
  id : Nat
  question : String
  placeholder : String
  required : Bool
  deriving DecidableEq, Repr

/-- The generic follow-up appended when fewer than 3 questions came back;
`len` is the length of the model's question list. -/
def genericFollowUp (len : Nat) : Question :=
  { id := len + 1,
    question := "还有其他需要说明的背景信息吗？",
    placeholder := "例如：时间限制、预算、特殊要求等...",
    required := false }

/-- The question-count clamp of `phase1_generate_inquiry`: fewer than 3
questions appends one generic follow-up; more than 5 keeps the first 5. -/
def clampQuestions (questions : List Question) : List Question :=
  if questions.length < 3 then questions ++ [genericFollowUp questions.length]
  else if questions.length > 5 then questions.take 5
  else questions

/-- C2: with 0 questions returned, the code appends a single generic follow-up
and ends with 1 question, not the 3 the claim states. -/
theorem clamp_zero_questions_gives_one :
    (clampQuestions []).length = 1 ∧ ¬ (clampQuestions []).length = 3 := by
  decide

/-- C2 (amended): when the model returns n questions the final list has length
n+1 for n < 3 (exactly one generic follow-up with required=false appended),
n for 3 ≤ n ≤ 5, and 5 for n > 5; so n = 0, 2, 3, 5, 7 yield 1, 3, 3, 5, 5. -/
theorem clampQuestions_length_spec (qs : List Question) (q : Question) :
    (qs.length < 3 →
      clampQuestions qs = qs ++ [genericFollowUp qs.length] ∧
      (clampQuestions qs).length = qs.length + 1 ∧
      (genericFollowUp qs.length).required = false) ∧
    (3 ≤ qs.length → qs.length ≤ 5 → clampQuestions qs = qs) ∧
    (5 < qs.length → clampQuestions qs = qs.take 5 ∧ (clampQuestions qs).length = 5) ∧
    ((clampQuestions (List.replicate 0 q)).length = 1 ∧
     (clampQuestions (List.replicate 2 q)).length = 3 ∧
     (clampQuestions (List.replicate 3 q)).length = 3 ∧
     (clampQuestions (List.replicate 5 q)).length = 5 ∧
     (clampQuestions (List.replicate 7 q)).length = 5) := by
  refine ⟨fun h3 => ?_, fun h3 h5 => ?_, fun h5 => ?_, ?_⟩
  · unfold clampQuestions
    rw [if_pos h3]
    simp [genericFollowUp]
  · unfold clampQuestions
    rw [if_neg (by omega), if_neg (by omega)]
  · unfold clampQuestions
    rw [if_neg (by omega), if_pos h5]
    refine ⟨rfl, ?_⟩
    simp
    omega
  · refine ⟨?_, ?_, ?_, ?_, ?_⟩ <;> simp [clampQuestions, List.length_replicate]

theorem clampQuestions_length_spec_witness :
    ([] : List Question).length < 3 ∧
    (clampQuestions [] = [] ++ [genericFollowUp ([] : List Question).length] ∧
      (clampQuestions ([] : List Question)).length = ([] : List Question).length + 1 ∧
      (genericFollowUp ([] : List Question).length).required = false) :=
  ⟨by decide, (clampQuestions_length_spec [] (genericFollowUp 0)).1 (by decide)⟩

/-! ### Phase 2 planning and Phase 3 collaboration (phase2_planning.py,
phase3_collaboration, and the loop of `TaskService._process_task_async`).
Upstream calls are oracle parameters; parsed JSON replies are records. The
free-text input/output/reasoning summaries of audit entries are not modelled
(no claim depends on them); step index, actor, action, tokens and cost are. -/

/-- A successful `chat` reply as consumed by the phase functions. -/
structure AIResult where
  content : String
  total_tokens : Nat
  cost : ℚ
  deriving DecidableEq, Repr

/-- Parsed reply of `_check_divergence` with the token/cost fields attached. -/
structure DivergenceCheck where
  has_significant_divergence : Bool
  reason : String
  tokens_used : Nat
  cost : ℚ
  deriving DecidableEq, Repr

/-- Parsed reply of `_check_novelty` with the token/cost fields attached. -/
structure NoveltyCheck where
  has_novelty : Bool
  reason : String
  tokens_used : Nat
  cost : ℚ
  deriving DecidableEq, Repr

/-- Parsed reply of `_check_need_improvement` with token/cost attached. -/
structure ImprovementCheck where
  needs_improvement : Bool
  severity : String
  reason : String
  tokens_used : Nat
  cost : ℚ
  deriving DecidableEq, Repr

/-- An audit-trail entry (free-text summaries omitted). -/
structure AuditEntry where
  step : Nat
  phase : String
  actor : String
  action : String
  tokens_used : Nat
  cost : ℚ
  deriving DecidableEq, Repr

/-- The check recorded inside a collaboration round. -/
inductive RoundCheck where
  | divergence : DivergenceCheck → RoundCheck
  | novelty : NoveltyCheck → RoundCheck
  | improvement : ImprovementCheck → RoundCheck
  deriving DecidableEq, Repr

/-- One entry of `debate_rounds` (`ai_a_action`/`ai_b_action` labels only
exist in review mode). -/
structure DebateRound where
  round : Nat
  ai_a : String
  ai_b : String
  check : RoundCheck
  ai_a_action : Option String
  ai_b_action : Option String
  deriving DecidableEq, Repr

/-- The slice of `JexAgentState` threaded through planning and collaboration. -/
structure WorkState where
  scene : String
  user_input : String
  task_type : String
  collaboration_mode : String
  ai_a_role : String
  ai_b_role : String
  ai_a_output : String
  ai_b_output : String
  debate_rounds : List DebateRound
  current_round : Nat
  max_rounds : Nat
  should_stop : Bool
  stop_reason : Option String
  audit_trail : List AuditEntry
  total_cost : ℚ
  error : Option String
  deriving DecidableEq, Repr

/-- The planner's parsed JSON; every key may be absent
(`planning_data.get(key, default)`). -/
structure PlanningData where
  task_type : Option String
  collaboration_mode : Option String
  ai_a_role : Option String
  ai_b_role : Option String
  max_rounds : Option Nat
  reasoning : Option String
  deriving DecidableEq, Repr

/-- Model of `phase2_planning`: on a successful meta call with parsed data `pd`, the
delta applies the planner's fields (with defaults), resets `current_round` to
0 and `should_stop` to false, appends one audit entry and adds the call cost.
On any error the default debate strategy is applied and audit/cost are left
untouched. -/
def phase2_planning (state : WorkState) (env : Option (AIResult × PlanningData)) : WorkState :=
  match env with
  | some (result, pd) =>
    { state with
      task_type := pd.task_type.getD ("未分类任务"),
      collaboration_mode := pd.collaboration_mode.getD ("debate"),
      ai_a_role := pd.ai_a_role.getD ("深度分析"),
      ai_b_role := pd.ai_b_role.getD ("实用建议"),
      max_rounds := pd.max_rounds.getD 3,
      current_round := 0,
      should_stop := false,
      audit_trail := state.audit_trail ++
        [{ step := state.audit_trail.length, phase := "规划", actor := "元认知AI",
           action := "制定协作策略", tokens_used := result.total_tokens, cost := result.cost }],
      total_cost := state.total_cost + result.cost }
  | none =>
    { state with
      error := some ("Phase 2规划失败，使用默认策略"),
      task_type := "通用分析",
      collaboration_mode := "debate",
      ai_a_role := "从深度和专业性角度分析",
      ai_b_role := "从实用性和可操作性角度分析",
      max_rounds := 3,
      current_round := 0,
      should_stop := false }

/-- The upstream replies consumed by one collaboration round (`_call_ai_a` /
`_call_ai_b` or `_debate_response`, plus the meta check of the branch taken). -/
structure RoundEnv where
  aResult : AIResult
  bResult : AIResult
  divergence : DivergenceCheck
  novelty : NoveltyCheck
  improvement : ImprovementCheck

/-- Model of `phase3_debate_mode`: round 1 (`current_round == 0`) runs both sides and
the divergence check; later rounds run the rebuttals and the novelty check,
stopping on no novelty or on `current_round + 1 >= max_rounds`. -/
def phase3_debate_mode (state : WorkState) (env : RoundEnv) : WorkState :=
  if state.current_round = 0 then
    let audit_trail := state.audit_trail ++
      [{ step := state.audit_trail.length, phase := "协作", actor := "Kimi",
         action := "独立分析", tokens_used := env.aResult.total_tokens, cost := env.aResult.cost },
       { step := state.audit_trail.length + 1, phase := "协作", actor := "Qwen",
         action := "独立分析", tokens_used := env.bResult.total_tokens, cost := env.bResult.cost },
       { step := state.audit_trail.length + 2, phase := "协作", actor := "元认知AI",
         action := "判断差异", tokens_used := env.divergence.tokens_used, cost := env.divergence.cost }]
    let total_cost := state.total_cost + env.aResult.cost + env.bResult.cost + env.divergence.cost
    let debate_rounds : List DebateRound :=
      [{ round := 1, ai_a := env.aResult.content, ai_b := env.bResult.content,
         check := RoundCheck.divergence env.divergence, ai_a_action := none, ai_b_action := none }]
    if env.divergence.has_significant_divergence then
      { state with
        ai_a_output := env.aResult.content, ai_b_output := env.bResult.content,
        debate_rounds := debate_rounds, current_round := 1, should_stop := false,
        audit_trail := audit_trail, total_cost := total_cost }
    else
      { state with
        ai_a_output := env.aResult.content, ai_b_output := env.bResult.content,
        debate_rounds := debate_rounds, current_round := 1, should_stop := true,
        stop_reason := some ("观点趋于一致，无需辩论"),
        audit_trail := audit_trail, total_cost := total_cost }
  else
    let current_round := state.current_round
    let audit_trail := state.audit_trail ++
      [{ step := state.audit_trail.length, phase := "协作", actor := "Kimi",
         action := "辩论第" ++ toString (current_round + 1) ++ "轮",
         tokens_used := env.aResult.total_tokens, cost := env.aResult.cost },
       { step := state.audit_trail.length + 1, phase := "协作", actor := "Qwen",
         action := "辩论第" ++ toString (current_round + 1) ++ "轮",
         tokens_used := env.bResult.total_tokens, cost := env.bResult.cost },
       { step := state.audit_trail.length + 2, phase := "协作", actor := "元认知AI",
         action := "检测信息增量", tokens_used := env.novelty.tokens_used, cost := env.novelty.cost }]
    let total_cost := state.total_cost + env.aResult.cost + env.bResult.cost + env.novelty.cost
    let debate_rounds := state.debate_rounds ++
      [{ round := current_round + 1, ai_a := env.aResult.content, ai_b := env.bResult.content,
         check := RoundCheck.novelty env.novelty, ai_a_action := none, ai_b_action := none }]
    let should_stop := !env.novelty.has_novelty || decide (state.max_rounds ≤ current_round + 1)
    { state with
      ai_a_output := env.aResult.content, ai_b_output := env.bResult.content,
      debate_rounds := debate_rounds, current_round := current_round + 1,
      should_stop := should_stop,
      stop_reason :=
        if should_stop then
          if !env.novelty.has_novelty then some ("无新信息增量，观点已收敛")
          else some ("达到最大轮次限制(" ++ toString state.max_rounds ++ "轮)")
        else none,
      audit_trail := audit_trail, total_cost := total_cost }

/-- Model of `phase3_review_mode`: round 1 generates a draft, reviews it and asks the
improvement check; later rounds improve, re-review and re-check, stopping on
no improvement needed or on `current_round + 1 >= max_rounds`. -/
def phase3_review_mode (state : WorkState) (env : RoundEnv) : WorkState :=
  if state.current_round = 0 then
    let audit_trail := state.audit_trail ++
      [{ step := state.audit_trail.length, phase := "协作", actor := "Kimi",
         action := "生成内容初稿", tokens_used := env.aResult.total_tokens, cost := env.aResult.cost },
       { step := state.audit_trail.length + 1, phase := "协作", actor := "Qwen",
         action := "审查内容", tokens_used := env.bResult.total_tokens, cost := env.bResult.cost },
       { step := state.audit_trail.length + 2, phase := "协作", actor := "元认知AI",
         action := "判断是否需要改进", tokens_used := env.improvement.tokens_used,
         cost := env.improvement.cost }]
    let total_cost := state.total_cost + env.aResult.cost + env.bResult.cost + env.improvement.cost
    let debate_rounds : List DebateRound :=
      [{ round := 1, ai_a := env.aResult.content, ai_b := env.bResult.content,
         check := RoundCheck.improvement env.improvement,
         ai_a_action := some ("生成初稿"), ai_b_action := some ("审查反馈") }]
    if env.improvement.needs_improvement then
      { state with
        ai_a_output := env.aResult.content, ai_b_output := env.bResult.content,
        debate_rounds := debate_rounds, current_round := 1, should_stop := false,
        audit_trail := audit_trail, total_cost := total_cost }
    else
      { state with
        ai_a_output := env.aResult.content, ai_b_output := env.bResult.content,
        debate_rounds := debate_rounds, current_round := 1, should_stop := true,
        stop_reason := some ("内容质量已达标，无需改进"),
        audit_trail := audit_trail, total_cost := total_cost }
  else
    let current_round := state.current_round
    let audit_trail := state.audit_trail ++
      [{ step := state.audit_trail.length, phase := "协作", actor := "Kimi",
         action := "改进第" ++ toString (current_round + 1) ++ "轮",
         tokens_used := env.aResult.total_tokens, cost := env.aResult.cost },
       { step := state.audit_trail.length + 1, phase := "协作", actor := "Qwen",
         action := "审查第" ++ toString (current_round + 1) ++ "轮",
         tokens_used := env.bResult.total_tokens, cost := env.bResult.cost },
       { step := state.audit_trail.length + 2, phase := "协作", actor := "元认知AI",
         action := "质量判断", tokens_used := env.improvement.tokens_used,
         cost := env.improvement.cost }]
    let total_cost := state.total_cost + env.aResult.cost + env.bResult.cost + env.improvement.cost
    let debate_rounds := state.debate_rounds ++
      [{ round := current_round + 1, ai_a := env.aResult.content, ai_b := env.bResult.content,
         check := RoundCheck.improvement env.improvement,
         ai_a_action := some ("改进内容"), ai_b_action := some ("再次审查") }]
    let should_stop := !env.improvement.needs_improvement ||
      decide (state.max_rounds ≤ current_round + 1)
    { state with
      ai_a_output := env.aResult.content, ai_b_output := env.bResult.content,
      debate_rounds := debate_rounds, current_round := current_round + 1,
      should_stop := should_stop,
      stop_reason :=
        if should_stop then
          if !env.improvement.needs_improvement then some ("内容质量已达标")
          else some ("达到最大改进轮次(" ++ toString state.max_rounds ++ "轮)")
        else none,
      audit_trail := audit_trail, total_cost := total_cost }

/-- One iteration body of the collaboration loop of `_process_task_async`:
run the mode's phase-3 function, apply the delta (`state.update`), then
overwrite `current_round` with the service's own loop counter. -/
def collabStep (mode : String) (env : RoundEnv) (cnt : Nat) (st : WorkState) : WorkState :=
  { (if mode = "review" then phase3_review_mode st env else phase3_debate_mode st env) with
    current_round := cnt + 1 }

/-- The collaboration loop of `_process_task_async` (lines 456–502): the
service keeps its own round counter, breaks above `MAX_COLLABORATION_ROUNDS`,
and otherwise runs `collabStep`. Returns the state after each iteration. -/
def collabLoop (mode : String) (envs : Nat → RoundEnv) :
    Nat → Nat → WorkState → List WorkState
  | _, 0, _ => []
  | cnt, fuel + 1, st =>
    if st.should_stop then []
    else if MAX_COLLABORATION_ROUNDS < cnt + 1 then []
    else
      let st2 := collabStep mode (envs (cnt + 1)) cnt st
      st2 :: collabLoop mode envs (cnt + 1) fuel st2

/-- The full collaboration loop as run by the service (`while not should_stop`
with loop counter starting at 0; the fuel strictly exceeds the hard cap, so it
never cuts a run short). -/
def runCollaboration (st : WorkState) (envs : Nat → RoundEnv) : List WorkState :=
  collabLoop st.collaboration_mode envs 0 (MAX_COLLABORATION_ROUNDS + 1) st

theorem phase3_debate_mode_step (st : WorkState) (env : RoundEnv) :
    (phase3_debate_mode st env).max_rounds = st.max_rounds ∧
    (phase3_debate_mode st env).current_round =
      (if st.current_round = 0 then 1 else st.current_round + 1) ∧
    ((phase3_debate_mode st env).should_stop = false →
      st.current_round = 0 ∨ st.current_round + 1 < st.max_rounds) := by
  by_cases h0 : st.current_round = 0
  · by_cases hd : env.divergence.has_significant_divergence <;>
      simp [phase3_debate_mode, h0, hd]
  · refine ⟨by simp [phase3_debate_mode, h0], by simp [phase3_debate_mode, h0], fun hs => ?_⟩
    simp only [phase3_debate_mode, if_neg h0] at hs
    simp only [Bool.or_eq_false_iff, Bool.not_eq_false, decide_eq_false_iff_not, not_le] at hs
    exact Or.inr hs.2

theorem phase3_review_mode_step (st : WorkState) (env : RoundEnv) :
    (phase3_review_mode st env).max_rounds = st.max_rounds ∧
    (phase3_review_mode st env).current_round =
      (if st.current_round = 0 then 1 else st.current_round + 1) ∧
    ((phase3_review_mode st env).should_stop = false →
      st.current_round = 0 ∨ st.current_round + 1 < st.max_rounds) := by
  by_cases h0 : st.current_round = 0
  · by_cases hd : env.improvement.needs_improvement <;>
      simp [phase3_review_mode, h0, hd]
  · refine ⟨by simp [phase3_review_mode, h0], by simp [phase3_review_mode, h0], fun hs => ?_⟩
    simp only [phase3_review_mode, if_neg h0] at hs
    simp only [Bool.or_eq_false_iff, Bool.not_eq_false, decide_eq_false_iff_not, not_le] at hs
    exact Or.inr hs.2

theorem collabStep_spec (mode : String) (env : RoundEnv) (cnt : Nat) (st : WorkState)
    (hsync : st.current_round = cnt) :
    (collabStep mode env cnt st).max_rounds = st.max_rounds ∧
    (collabStep mode env cnt st).current_round = cnt + 1 ∧
    ((collabStep mode env cnt st).should_stop = false →
      cnt = 0 ∨ cnt + 1 < st.max_rounds) := by
  have key : ∀ st1 : WorkState,
      st1.max_rounds = st.max_rounds →
      (st1.should_stop = false → st.current_round = 0 ∨ st.current_round + 1 < st.max_rounds) →
      ({ st1 with current_round := cnt + 1 } : WorkState).max_rounds = st.max_rounds ∧
      ({ st1 with current_round := cnt + 1 } : WorkState).current_round = cnt + 1 ∧
      (({ st1 with current_round := cnt + 1 } : WorkState).should_stop = false →
        cnt = 0 ∨ cnt + 1 < st.max_rounds) := by
    intro st1 hmax hss
    refine ⟨hmax, rfl, fun hs => ?_⟩
    rcases hss hs with h | h
    · left
      omega
    · right
      omega
  unfold collabStep
  by_cases hm : mode = "review"
  · subst hm
    rw [if_pos rfl]
    have h := phase3_review_mode_step st env
    exact key _ h.1 h.2.2
  · rw [if_neg hm]
    have h := phase3_debate_mode_step st env
    exact key _ h.1 h.2.2

theorem collabLoop_nil_of_stop (mode : String) (envs : Nat → RoundEnv) (cnt fuel : Nat)
    (st : WorkState) (h : st.should_stop = true) :
    collabLoop mode envs cnt fuel st = [] := by
  cases fuel <;> simp [collabLoop, h]

theorem collabLoop_invariant (mode : String) (envs : Nat → RoundEnv) :
    ∀ (fuel cnt : Nat) (st : WorkState),
      2 ≤ st.max_rounds → st.max_rounds ≤ 10 → st.current_round = cnt →
      (st.should_stop = false → cnt = 0 ∨ cnt < st.max_rounds) →
      ∀ s ∈ collabLoop mode envs cnt fuel st,
        s.current_round ≤ s.max_rounds ∧ s.max_rounds ≤ 10 := by
  intro fuel
  induction fuel with
  | zero =>
    intro cnt st _ _ _ _ s hs
    simp [collabLoop] at hs
  | succ fuel ih =>
    intro cnt st h2 h10 hsync hrun s hs
    by_cases hstop : st.should_stop
    · rw [collabLoop_nil_of_stop mode envs _ _ st hstop] at hs
      cases hs
    · have hstop' : st.should_stop = false := by simpa using hstop
      have hcnt : cnt = 0 ∨ cnt < st.max_rounds := hrun hstop'
      rw [collabLoop, if_neg hstop] at hs
      by_cases hcap : MAX_COLLABORATION_ROUNDS < cnt + 1
      · rw [if_pos hcap] at hs
        cases hs
      · rw [if_neg hcap] at hs
        have hspec := collabStep_spec mode (envs (cnt + 1)) cnt st hsync
        simp only [List.mem_cons] at hs
        rcases hs with rfl | hs
        · refine ⟨?_, hspec.1 ▸ h10⟩
          rw [hspec.1, hspec.2.1]
          omega
        · exact ih (cnt + 1) _ (hspec.1 ▸ h2) (hspec.1 ▸ h10) hspec.2.1
            (fun hf => Or.inr (by rcases hspec.2.2 hf with h | h <;> rw [hspec.1] <;> omega)) s hs

theorem collabLoop_round_le_cap (mode : String) (envs : Nat → RoundEnv) :
    ∀ (fuel cnt : Nat) (st : WorkState),
      ∀ s ∈ collabLoop mode envs cnt fuel st, s.current_round ≤ MAX_COLLABORATION_ROUNDS := by
  intro fuel
  induction fuel with
  | zero =>
    intro cnt st s hs
    simp [collabLoop] at hs
  | succ fuel ih =>
    intro cnt st s hs
    by_cases hstop : st.should_stop
    · rw [collabLoop_nil_of_stop mode envs _ _ st hstop] at hs
      cases hs
    · rw [collabLoop, if_neg hstop] at hs
      by_cases hcap : MAX_COLLABORATION_ROUNDS < cnt + 1
      · rw [if_pos hcap] at hs
        cases hs
      · rw [if_neg hcap] at hs
        simp only [List.mem_cons] at hs
        rcases hs with rfl | hs
        · show (collabStep mode (envs (cnt + 1)) cnt st).current_round ≤ _
          unfold collabStep
          simpa using Nat.le_of_not_lt hcap
        · exact ih (cnt + 1) _ s hs

theorem collabLoop_stop_monotone (mode : String) (envs : Nat → RoundEnv) :
    ∀ (fuel cnt : Nat) (st : WorkState),
      (collabLoop mode envs cnt fuel st).Pairwise
        (fun a b => a.should_stop = true → b.should_stop = true) := by
  intro fuel
  induction fuel with
  | zero =>
    intro cnt st
    simp [collabLoop]
  | succ fuel ih =>
    intro cnt st
    by_cases hstop : st.should_stop
    · rw [collabLoop_nil_of_stop mode envs _ _ st hstop]
      exact List.Pairwise.nil
    · rw [collabLoop, if_neg hstop]
      by_cases hcap : MAX_COLLABORATION_ROUNDS < cnt + 1
      · rw [if_pos hcap]
        exact List.Pairwise.nil
      · rw [if_neg hcap]
        refine List.pairwise_cons.mpr ⟨fun b hb h2 => ?_, ih (cnt + 1) _⟩
        rw [collabLoop_nil_of_stop mode envs _ _ _ h2] at hb
        cases hb

theorem phase2_planning_fields (ws : WorkState) (r : AIResult) (pd : PlanningData) :
    (phase2_planning ws (some (r, pd))).current_round = 0 ∧
    (phase2_planning ws (some (r, pd))).max_rounds = pd.max_rounds.getD 3 ∧
    (phase2_planning ws (some (r, pd))).should_stop = false := by
  simp [phase2_planning]

/-- C1 (amended): throughout planning and the collaboration loop, once a
phase delta sets should_stop=true the loop exits, so no later state of the
run reverts it to false; the service's hard cap keeps current_round ≤ 10
unconditionally; and provided the planner's (unvalidated) max_rounds reply
lies in [2, 10], every reachable state also satisfies
current_round ≤ max_rounds ≤ 10. -/
theorem collaboration_state_invariant (ws : WorkState) (r : AIResult) (pd : PlanningData)
    (envs : Nat → RoundEnv) (h2 : 2 ≤ pd.max_rounds.getD 3) (h10 : pd.max_rounds.getD 3 ≤ 10) :
    (phase2_planning ws (some (r, pd))).current_round ≤
      (phase2_planning ws (some (r, pd))).max_rounds ∧
    (phase2_planning ws (some (r, pd))).max_rounds ≤ 10 ∧
    (∀ s ∈ runCollaboration (phase2_planning ws (some (r, pd))) envs,
      s.current_round ≤ s.max_rounds ∧ s.max_rounds ≤ 10 ∧
      s.current_round ≤ MAX_COLLABORATION_ROUNDS) ∧
    (phase2_planning ws (some (r, pd)) ::
        runCollaboration (phase2_planning ws (some (r, pd))) envs).Pairwise
      (fun a b => a.should_stop = true → b.should_stop = true) := by
  obtain ⟨hcr, hmr, hss⟩ := phase2_planning_fields ws r pd
  refine ⟨by omega, by omega, fun s hs => ?_, ?_⟩
  · have hinv := collabLoop_invariant (phase2_planning ws (some (r, pd))).collaboration_mode
      envs (MAX_COLLABORATION_ROUNDS + 1) 0 (phase2_planning ws (some (r, pd)))
      (by omega) (by omega) hcr (fun _ => Or.inl rfl) s hs
    have hcap := collabLoop_round_le_cap (phase2_planning ws (some (r, pd))).collaboration_mode
      envs (MAX_COLLABORATION_ROUNDS + 1) 0 (phase2_planning ws (some (r, pd))) s hs
    exact ⟨hinv.1, hinv.2, hcap⟩
  · refine List.pairwise_cons.mpr ⟨fun b _ habs => ?_, ?_⟩
    · rw [hss] at habs
      cases habs
    · exact collabLoop_stop_monotone _ envs _ 0 _

/-- Concrete inputs used below by the C1 witness and counterexample. -/
def exampleBaseState : WorkState :=
  { scene := "topic-analysis", user_input := "demo", task_type := "",
    collaboration_mode := "", ai_a_role := "", ai_b_role := "", ai_a_output := "",
    ai_b_output := "", debate_rounds := [], current_round := 0, max_rounds := 3,
    should_stop := false, stop_reason := none, audit_trail := [], total_cost := 0,
    error := none }

def exampleAIResult : AIResult :=
  { content := "ok", total_tokens := 100, cost := 0 }

def exampleRoundEnv : RoundEnv :=
  { aResult := exampleAIResult, bResult := exampleAIResult,
    divergence := { has_significant_divergence := false, reason := "", tokens_used := 0, cost := 0 },
    novelty := { has_novelty := false, reason := "", tokens_used := 0, cost := 0 },
    improvement := { needs_improvement := false, severity := "", reason := "", tokens_used := 0, cost := 0 } }

def planningReply3 : PlanningData :=
  { task_type := none, collaboration_mode := some ("debate"), ai_a_role := none,
    ai_b_role := none, max_rounds := some 3, reasoning := none }

def planningReply50 : PlanningData :=
  { task_type := none, collaboration_mode := some ("debate"), ai_a_role := none,
    ai_b_role := none, max_rounds := some 50, reasoning := none }

theorem collaboration_state_invariant_witness :
    2 ≤ planningReply3.max_rounds.getD 3 ∧ planningReply3.max_rounds.getD 3 ≤ 10 ∧
    ((phase2_planning exampleBaseState (some (exampleAIResult, planningReply3))).current_round ≤
      (phase2_planning exampleBaseState (some (exampleAIResult, planningReply3))).max_rounds ∧
    (phase2_planning exampleBaseState (some (exampleAIResult, planningReply3))).max_rounds ≤ 10 ∧
    (∀ s ∈ runCollaboration
        (phase2_planning exampleBaseState (some (exampleAIResult, planningReply3)))
        (fun _ => exampleRoundEnv),
      s.current_round ≤ s.max_rounds ∧ s.max_rounds ≤ 10 ∧
      s.current_round ≤ MAX_COLLABORATION_ROUNDS) ∧
    (phase2_planning exampleBaseState (some (exampleAIResult, planningReply3)) ::
        runCollaboration
          (phase2_planning exampleBaseState (some (exampleAIResult, planningReply3)))
          (fun _ => exampleRoundEnv)).Pairwise
      (fun a b => a.should_stop = true → b.should_stop = true)) :=
  ⟨by decide, by decide,
    collaboration_state_invariant exampleBaseState exampleAIResult planningReply3
      (fun _ => exampleRoundEnv) (by decide) (by decide)⟩

/-- C1: the code applies the planner's `max_rounds` without validation; a
planning reply carrying `max_rounds = 50` yields a reachable PhaseState with
`max_rounds = 50`, falsifying the invariant `max_rounds ≤ 10`. -/
theorem planner_max_rounds_unvalidated :
    (phase2_planning exampleBaseState (some (exampleAIResult, planningReply50))).max_rounds = 50 ∧
    ¬ (phase2_planning exampleBaseState
        (some (exampleAIResult, planningReply50))).max_rounds ≤ 10 := by
  have h : (phase2_planning exampleBaseState
      (some (exampleAIResult, planningReply50))).max_rounds = 50 := by
    simp [phase2_planning, planningReply50]
  exact ⟨h, by omega⟩

/-! ### Upstream client: retry decorator, circuit breaker (ai_client_fixed.py)
and the failover of the client manager (ai_manager_fixed.py). -/

/-- Outcome one call to the wrapped callable raises to the retry decorator:
success, a transport error (`httpx.RemoteProtocolError`, `ConnectError`,
`ReadTimeout`) escaping the callable, or any other exception. Note that the
only decorated function, `AIClient.chat`, converts every exception of its
body into a plain `Exception` before it escapes (see `chatBodyOutcome`
below), so the decorated chat never raises `transportError` here. -/
inductive UpstreamOutcome where
  | ok : AIResult → UpstreamOutcome
  | transportError : String → UpstreamOutcome
  | otherError : String → UpstreamOutcome
  deriving DecidableEq, Repr

inductive RetryError where
  | transport : String → RetryError
  | other : String → RetryError
  deriving DecidableEq, Repr

/-- Trace of one `retry_on_connection_error`-wrapped call: the surfaced
result, the back-off delays slept (in seconds, in order), and the number of
attempts actually made. -/
structure RetryLog where
  result : Except RetryError AIResult
  sleeps : List ℚ
  attempts : Nat
  deriving Repr

/-- The loop body of `retry_on_connection_error(max_retries, delay)`:
`for attempt in range(max_retries)` — a transport error sleeps
`delay * 2 ** attempt` and retries while `attempt < max_retries - 1`, any
other exception is re-raised immediately. `env attempt` is the outcome of
attempt number `attempt` (0-based); the fuel equals the remaining iterations. -/
def retryAux (delay : ℚ) (env : Nat → UpstreamOutcome) (max_retries : Nat) :
    Nat → Nat → RetryLog
  | _, 0 =>
    { result := Except.error (RetryError.transport ("loop exhausted")), sleeps := [], attempts := 0 }
  | attempt, fuel + 1 =>
    match env attempt with
    | UpstreamOutcome.ok r => { result := Except.ok r, sleeps := [], attempts := 1 }
    | UpstreamOutcome.transportError m =>
      if attempt < max_retries - 1 then
        let rest := retryAux delay env max_retries (attempt + 1) fuel
        { result := rest.result, sleeps := delay * 2 ^ attempt :: rest.sleeps,
          attempts := rest.attempts + 1 }
      else { result := Except.error (RetryError.transport m), sleeps := [], attempts := 1 }
    | UpstreamOutcome.otherError m =>
      { result := Except.error (RetryError.other m), sleeps := [], attempts := 1 }

/-- The decorator as applied to `AIClient.chat`: `max_retries = 3`,
`delay = 1.0`. -/
def retry_on_connection_error (env : Nat → UpstreamOutcome) : RetryLog :=
  retryAux 1 env 3 0 3

theorem retryAux_attempts_le (delay : ℚ) (env : Nat → UpstreamOutcome) (mr : Nat) :
    ∀ (fuel attempt : Nat), (retryAux delay env mr attempt fuel).attempts ≤ fuel := by
  intro fuel
  induction fuel with
  | zero =>
    intro attempt
    simp [retryAux]
  | succ fuel ih =>
    intro attempt
    rw [retryAux]
    cases env attempt with
    | ok r => simp
    | transportError m =>
      dsimp only
      split
      · exact Nat.succ_le_succ (ih (attempt + 1))
      · simp
    | otherError m => simp

/-- The decorator in isolation implements the documented policy: transport
errors reaching it are retried with exponential back-off `1 s × 2^attempt`,
bounded by `max_retries = 3` total attempts; a success or a non-transport
error ends the call immediately, the latter surfaced without any retry; on
persistent transport errors exactly 3 attempts are made, sleeping 1 s then
2 s. (For the decorated `chat` the transport cases below are dead paths —
see `chat_retry_never_retries`.) -/
theorem retry_policy_spec (env : Nat → UpstreamOutcome) :
    (retry_on_connection_error env).attempts ≤ 3 ∧
    (∀ m, env 0 = UpstreamOutcome.otherError m →
      retry_on_connection_error env =
        { result := Except.error (RetryError.other m), sleeps := [], attempts := 1 }) ∧
    (∀ r, env 0 = UpstreamOutcome.ok r →
      retry_on_connection_error env =
        { result := Except.ok r, sleeps := [], attempts := 1 }) ∧
    (∀ m r, env 0 = UpstreamOutcome.transportError m → env 1 = UpstreamOutcome.ok r →
      retry_on_connection_error env =
        { result := Except.ok r, sleeps := [1 * 2 ^ 0], attempts := 2 }) ∧
    (∀ m0 m1 m2, env 0 = UpstreamOutcome.transportError m0 →
      env 1 = UpstreamOutcome.transportError m1 → env 2 = UpstreamOutcome.transportError m2 →
      retry_on_connection_error env =
        { result := Except.error (RetryError.transport m2),
          sleeps := [1 * 2 ^ 0, 1 * 2 ^ 1], attempts := 3 }) := by
  refine ⟨retryAux_attempts_le 1 env 3 3 0, fun m h0 => ?_, fun r h0 => ?_,
    fun m r h0 h1 => ?_, fun m0 m1 m2 h0 h1 h2 => ?_⟩
  · simp [retry_on_connection_error, retryAux, h0]
  · simp [retry_on_connection_error, retryAux, h0]
  · simp [retry_on_connection_error, retryAux, h0, h1]
  · simp [retry_on_connection_error, retryAux, h0, h1, h2]

/-- What actually happens inside the try-block of `AIClient.chat` on one
attempt, before its exception handling: the HTTP request either succeeds,
raises an httpx transport error, or raises some other exception. -/
inductive RawOutcome where
  | ok : AIResult → RawOutcome
  | transport : String → RawOutcome
  | other : String → RawOutcome
  deriving DecidableEq, Repr

/-- The exception conversion of `AIClient.chat`'s body (ai_client_fixed.py
lines 71–118): the whole body sits in `try: ... except Exception as e:
... raise Exception(f"{name} 调用失败: {e}")`, so every exception — httpx
transport errors included — escapes the body as a plain `Exception`. This is
what the retry decorator around `chat` receives. -/
def chatBodyOutcome (name : String) : RawOutcome → UpstreamOutcome
  | RawOutcome.ok r => UpstreamOutcome.ok r
  | RawOutcome.transport m =>
    UpstreamOutcome.otherError (name ++ (" 调用失败: " ++ m))
  | RawOutcome.other m =>
    UpstreamOutcome.otherError (name ++ (" 调用失败: " ++ m))

/-- The decorated `chat` as deployed: the retry decorator composed with the
body's exception conversion. `raw attempt` is what the HTTP layer does on
attempt number `attempt`. -/
def decorated_chat (name : String) (raw : Nat → RawOutcome) : RetryLog :=
  retry_on_connection_error (fun attempt => chatBodyOutcome name (raw attempt))

/-- C6: the retry policy the claim states is implemented by the decorator but
is dead code on `chat` — the body's blanket `except Exception` re-raises a
plain `Exception`, which the decorator's transport-specific clause never
matches. Every chat call therefore makes exactly 1 attempt and never sleeps;
in particular a connection-refused transport error on every attempt is
surfaced immediately instead of being retried up to 3 times with 1 s × 2^attempt
back-off. -/
theorem chat_retry_never_retries :
    (∀ (name : String) (raw : Nat → RawOutcome),
      (decorated_chat name raw).attempts = 1 ∧ (decorated_chat name raw).sleeps = []) ∧
    decorated_chat ("DeepSeek") (fun _ => RawOutcome.transport ("connect refused")) =
      { result := Except.error
          (RetryError.other (("DeepSeek") ++ (" 调用失败: " ++ ("connect refused")))),
        sleeps := [], attempts := 1 } := by
  constructor
  · intro name raw
    cases hr : raw 0 with
    | ok r =>
      constructor <;>
        simp [decorated_chat, retry_on_connection_error, retryAux, chatBodyOutcome, hr]
    | transport m =>
      constructor <;>
        simp [decorated_chat, retry_on_connection_error, retryAux, chatBodyOutcome, hr]
    | other m =>
      constructor <;>
        simp [decorated_chat, retry_on_connection_error, retryAux, chatBodyOutcome, hr]
  · rfl

/-- Python's value universe for the open dictionaries handled here. -/
inductive PyVal where
  | pDict : List (String × PyVal) → PyVal
  | pList : List PyVal → PyVal
  | pNum : ℚ → PyVal
  | pStr : String → PyVal
  | pBool : Bool → PyVal

/-- An audit entry in its raw dictionary form. -/
abbrev AuditDict := List (String × PyVal)

/-- Python `x or d` on a number (0 and 0.0 are falsy, as is an absent key). -/
def pyOrQ (v d : ℚ) : ℚ := if v = 0 then d else v

def pyOrNat (v d : Nat) : Nat := if v = 0 then d else v

/-- Python `x or d` on a string ("" is falsy). -/
def pyOrStr (v d : String) : String := if v = "" then d else v

/-- Python `x or d` on a list/dict (empty is falsy). -/
def pyOrList {α : Type} (v d : List α) : List α := if v.isEmpty then d else v

/-- Python `x or d` on a boolean. -/
def pyOrBool (v d : Bool) : Bool := v || d

theorem pyOrQ_zero_default (v : ℚ) : pyOrQ v 0 = v := by
  unfold pyOrQ
  split <;> simp_all

theorem pyOrList_nil_default {α : Type} (v : List α) : pyOrList v [] = v := by
  unfold pyOrList
  split <;> simp_all [List.isEmpty_iff]

/-- The state dictionary as read and rewritten by `phase1_process_answers`
(`debate_rounds` is typed as the integer this function defaults it to). -/
structure P1State where
  task_id : String
  user_id : String
  scene : String
  user_input : String
  need_inquiry : Bool
  provided_info : List (String × PyVal)
  missing_info : List String
  info_sufficiency : ℚ
  collected_info : List (String × PyVal)
  task_type : String
  collaboration_mode : String
  ai_a_role : String
  ai_b_role : String
  ai_a_output : String
  ai_b_output : String
  debate_rounds : Nat
  current_round : Nat
  max_rounds : Nat
  should_stop : Bool
  stop_reason : String
  final_output : String
  audit_trail : List AuditDict
  total_cost : ℚ
  error : String

/-- The "skipped" audit entry recorded on a user skip: zero tokens, zero cost,
`step` equal to the pre-append audit length. -/
def skippedAuditEntry (trailLen : Nat) : AuditDict :=
  [(("step"), PyVal.pNum (trailLen : ℚ)), (("phase"), PyVal.pStr ("问询")),
   (("actor"), PyVal.pStr ("用户")), (("action"), PyVal.pStr ("跳过问询")),
   (("input"), PyVal.pStr ("用户选择跳过问询")),
   (("output"), PyVal.pStr ("使用现有信息继续处理")),
   (("reasoning"), PyVal.pStr ("用户选择跳过问询，使用现有信息继续AI协作")),
   (("tokens_used"), PyVal.pNum 0), (("cost"), PyVal.pNum 0)]

/-- Parsed `{extracted_info, summary}` meta reply for non-empty answers, with
the call's token/cost figures; the oracle is `none` when the call or the JSON
parse raises. -/
structure AnswerUnderstanding where
  extracted_info : List (String × PyVal)
  summary : String
  total_tokens : Nat
  cost : ℚ

/-- Python `{**a, **b}` on association lists: keys of `b` win. -/
def dictMerge (a b : List (String × PyVal)) : List (String × PyVal) :=
  a.filter (fun kv => (b.lookup kv.1).isNone) ++ b

/-- The audit entry of a successful answer-understanding call (the JSON dump of
the extracted info in its `output` field is not modelled). -/
def understoodAuditEntry (trailLen numAnswers : Nat) (u : AnswerUnderstanding) : AuditDict :=
  [(("step"), PyVal.pNum (trailLen : ℚ)), (("phase"), PyVal.pStr ("问询")),
   (("actor"), PyVal.pStr ("元认知AI")), (("action"), PyVal.pStr ("理解用户回答")),
   (("input"), PyVal.pStr ("收到" ++ toString numAnswers ++ "个回答")),
   (("reasoning"), PyVal.pStr u.summary),
   (("tokens_used"), PyVal.pNum (u.total_tokens : ℚ)), (("cost"), PyVal.pNum u.cost)]

/-- Model of `phase1_process_answers(state, answers)`: an empty answer map is a user
skip — record the "skipped" audit entry and set need_inquiry=false without
calling any upstream; a non-empty map calls meta, merges the extracted info
into collected_info, sets info_sufficiency to 1.0 and clears missing_info; a
raised call/parse error yields the failure delta. -/
def phase1_process_answers (state : P1State) (answers : List (Nat × String))
    (meta : Option AnswerUnderstanding) : P1State :=
  if answers.isEmpty then
    { task_id := pyOrStr state.task_id "",
      user_id := pyOrStr state.user_id "",
      scene := pyOrStr state.scene "",
      user_input := pyOrStr state.user_input "",
      need_inquiry := false,
      provided_info := pyOrList state.provided_info [],
      missing_info := pyOrList state.missing_info [],
      info_sufficiency := pyOrQ state.info_sufficiency (3 / 10),
      collected_info := pyOrList state.collected_info [],
      task_type := pyOrStr state.task_type ("topic-analysis"),
      collaboration_mode := "inquiry_skipped",
      ai_a_role := pyOrStr state.ai_a_role "",
      ai_b_role := pyOrStr state.ai_b_role "",
      ai_a_output := pyOrStr state.ai_a_output "",
      ai_b_output := pyOrStr state.ai_b_output "",
      debate_rounds := pyOrNat state.debate_rounds 0,
      current_round := pyOrNat state.current_round 0,
      max_rounds := pyOrNat state.max_rounds 3,
      should_stop := pyOrBool state.should_stop false,
      stop_reason := pyOrStr state.stop_reason "",
      final_output := pyOrStr state.final_output "",
      audit_trail := pyOrList state.audit_trail [] ++
        [skippedAuditEntry state.audit_trail.length],
      total_cost := pyOrQ state.total_cost 0,
      error := pyOrStr state.error "" }
  else
    match meta with
    | some u =>
      { task_id := pyOrStr state.task_id "",
        user_id := pyOrStr state.user_id "",
        scene := pyOrStr state.scene "",
        user_input := pyOrStr state.user_input "",
        need_inquiry := false,
        provided_info := pyOrList state.provided_info [],
        missing_info := [],
        info_sufficiency := 1,
        collected_info := dictMerge state.collected_info u.extracted_info,
        task_type := pyOrStr state.task_type ("topic-analysis"),
        collaboration_mode := "inquiry_completed",
        ai_a_role := pyOrStr state.ai_a_role "",
        ai_b_role := pyOrStr state.ai_b_role "",
        ai_a_output := pyOrStr state.ai_a_output "",
        ai_b_output := pyOrStr state.ai_b_output "",
        debate_rounds := pyOrNat state.debate_rounds 0,
        current_round := pyOrNat state.current_round 0,
        max_rounds := pyOrNat state.max_rounds 3,
        should_stop := pyOrBool state.should_stop false,
        stop_reason := pyOrStr state.stop_reason "",
        final_output := pyOrStr state.final_output "",
        audit_trail := pyOrList state.audit_trail [] ++
          [understoodAuditEntry state.audit_trail.length answers.length u],
        total_cost := pyOrQ state.total_cost 0 + u.cost,
        error := pyOrStr state.error "" }
    | none =>
      { task_id := pyOrStr state.task_id "",
        user_id := pyOrStr state.user_id "",
        scene := pyOrStr state.scene "",
        user_input := pyOrStr state.user_input "",
        need_inquiry := false,
        provided_info := pyOrList state.provided_info [],
        missing_info := pyOrList state.missing_info [],
        info_sufficiency := pyOrQ state.info_sufficiency (3 / 10),
        collected_info := pyOrList state.collected_info [],
        task_type := pyOrStr state.task_type ("topic-analysis"),
        collaboration_mode := "inquiry_failed",
        ai_a_role := pyOrStr state.ai_a_role "",
        ai_b_role := pyOrStr state.ai_b_role "",
        ai_a_output := pyOrStr state.ai_a_output "",
        ai_b_output := pyOrStr state.ai_b_output "",
        debate_rounds := pyOrNat state.debate_rounds 0,
        current_round := pyOrNat state.current_round 0,
        max_rounds := pyOrNat state.max_rounds 3,
        should_stop := true,
        stop_reason := "Phase 1答案处理失败",
        final_output := pyOrStr state.final_output "",
        audit_trail := pyOrList state.audit_trail [],
        total_cost := pyOrQ state.total_cost 0,
        error := "Phase 1答案处理失败" }

/-- C4 (amended): on an empty answer map `phase1_process_answers` makes no
upstream call (the result is independent of the meta oracle), appends exactly
one "skipped" audit entry with zero tokens and zero cost, sets need_inquiry to
false, and leaves collected_info, missing_info and total_cost unchanged;
info_sufficiency is also unchanged *unless* it is 0.0 — falsy in Python — in
which case `state.get('info_sufficiency') or 0.3` replaces it by 0.3. -/
theorem phase1_skip_frame (state : P1State) (m1 m2 : Option AnswerUnderstanding) :
    phase1_process_answers state [] m1 = phase1_process_answers state [] m2 ∧
    (phase1_process_answers state [] m1).audit_trail =
      state.audit_trail ++ [skippedAuditEntry state.audit_trail.length] ∧
    (skippedAuditEntry state.audit_trail.length).lookup ("action") =
      some (PyVal.pStr ("跳过问询")) ∧
    (skippedAuditEntry state.audit_trail.length).lookup ("tokens_used") =
      some (PyVal.pNum 0) ∧
    (skippedAuditEntry state.audit_trail.length).lookup ("cost") = some (PyVal.pNum 0) ∧
    (phase1_process_answers state [] m1).need_inquiry = false ∧
    (phase1_process_answers state [] m1).collected_info = state.collected_info ∧
    (phase1_process_answers state [] m1).missing_info = state.missing_info ∧
    (phase1_process_answers state [] m1).total_cost = state.total_cost ∧
    (state.info_sufficiency ≠ 0 →
      (phase1_process_answers state [] m1).info_sufficiency = state.info_sufficiency) ∧
    (state.info_sufficiency = 0 →
      (phase1_process_answers state [] m1).info_sufficiency = 3 / 10) := by
  refine ⟨rfl, ?_, rfl, rfl, rfl, rfl, ?_, ?_, ?_, fun hne => ?_, fun heq => ?_⟩
  · show pyOrList state.audit_trail [] ++ _ = _
    rw [pyOrList_nil_default]
  · show pyOrList state.collected_info [] = _
    rw [pyOrList_nil_default]
  · show pyOrList state.missing_info [] = _
    rw [pyOrList_nil_default]
  · show pyOrQ state.total_cost 0 = _
    rw [pyOrQ_zero_default]
  · show pyOrQ state.info_sufficiency (3 / 10) = _
    unfold pyOrQ
    rw [if_neg hne]
  · show pyOrQ state.info_sufficiency (3 / 10) = _
    unfold pyOrQ
    rw [if_pos heq]

/-- A concrete Phase-0 output state whose `info_sufficiency` is 0.0. -/
def c4State : P1State :=
  { task_id := "t", user_id := "u", scene := "topic-analysis", user_input := "demo",
    need_inquiry := true, provided_info := [], missing_info := [("受众")],
    info_sufficiency := 0, collected_info := [(("k"), PyVal.pStr ("v"))],
    task_type := "topic-analysis", collaboration_mode := "inquiry", ai_a_role := "",
    ai_b_role := "", ai_a_output := "", ai_b_output := "", debate_rounds := 0,
    current_round := 0, max_rounds := 3, should_stop := false, stop_reason := "",
    final_output := "", audit_trail := [], total_cost := 0, error := "" }

/-- C4: with `info_sufficiency = 0.0` in the input state, the user-skip branch
returns `state.get('info_sufficiency') or 0.3 = 0.3`, so the field is not
left unchanged as the claim states. -/
theorem phase1_skip_changes_zero_sufficiency :
    c4State.info_sufficiency = 0 ∧
    (phase1_process_answers c4State [] none).info_sufficiency = 3 / 10 ∧
    ¬ (phase1_process_answers c4State [] none).info_sufficiency =
      c4State.info_sufficiency := by
  refine ⟨rfl, ?_, ?_⟩
  · show pyOrQ (0 : ℚ) (3 / 10) = 3 / 10
    simp [pyOrQ]
  · show ¬ pyOrQ (0 : ℚ) (3 / 10) = (0 : ℚ)
    simp [pyOrQ]

/-- Same state but with a non-falsy sufficiency, for the witness. -/
def c4StateHalf : P1State :=
  { c4State with info_sufficiency := 1 }

theorem phase1_skip_frame_witness :
    c4StateHalf.info_sufficiency ≠ 0 ∧
    (phase1_process_answers c4StateHalf [] none).info_sufficiency =
      c4StateHalf.info_sufficiency := by
  refine ⟨by simp [c4StateHalf, c4State], ?_⟩
  exact (phase1_skip_frame c4StateHalf none none).2.2.2.2.2.2.2.2.2.1
    (by simp [c4StateHalf, c4State])

/-! ### Intermediate-state whitelist validation and answer submission
(task_service.py: `IntermediateStateSchema`,
`TaskService.submit_answers_without_processing`). -/

/-- The whitelisted, validated intermediate state (`IntermediateStateSchema`). -/
structure ValidatedIntermediateState where
  provided_info : List (String × PyVal)
  missing_info : List String
  audit_trail : List AuditDict
  total_cost : ℚ

def allowedStateKeys : List String :=
  [("provided_info"), ("missing_info"), ("audit_trail"), ("total_cost")]

def parseProvidedInfo : Option PyVal → Option (List (String × PyVal))
  | none => some []
  | some (PyVal.pDict d) => some d
  | some _ => none

def parseMissingInfo : Option PyVal → Option (List String)
  | none => some []
  | some (PyVal.pList l) =>
    l.mapM (fun v => match v with | PyVal.pStr s => some s | _ => none)
  | some _ => none

def parseAuditTrail : Option PyVal → Option (List AuditDict)
  | none => some []
  | some (PyVal.pList l) =>
    l.mapM (fun v => match v with | PyVal.pDict d => some d | _ => none)
  | some _ => none

def parseTotalCost : Option PyVal → Option ℚ
  | none => some 0
  | some (PyVal.pNum q) => if 0 ≤ q ∧ q ≤ 1000 then some q else none
  | some _ => none

/-- Model of `IntermediateStateSchema(**intermediate_state)`: any key outside the
whitelist is rejected (`extra = "forbid"`), each field is type-checked, the
cost is bounded to [0, 1000] (`ge=0, le=1000` and the validator), and absent
fields take their defaults. `none` models the raised `ValidationError`. -/
def validateIntermediateState (payload : List (String × PyVal)) :
    Option ValidatedIntermediateState :=
  if payload.all (fun kv => allowedStateKeys.contains kv.1) then
    match parseProvidedInfo (payload.lookup ("provided_info")),
      parseMissingInfo (payload.lookup ("missing_info")),
      parseAuditTrail (payload.lookup ("audit_trail")),
      parseTotalCost (payload.lookup ("total_cost")) with
    | some pInfo, some mInfo, some trail, some cost =>
      some { provided_info := pInfo, missing_info := mInfo, audit_trail := trail,
             total_cost := cost }
    | _, _, _, _ => none
  else none

/-- The row of the `tasks` table touched by answer submission. -/
structure TaskRow where
  id : String
  user_id : String
  scene : String
  user_input : String
  status : String
  collected_info : List (String × PyVal)
  processing_state : Option P1State
  output : Option String

/-- Model of `TaskService.submit_answers_without_processing`: validate the
client-echoed intermediate_state, rebuild the phase state with the identity
fields taken from the stored row (never from the payload), run Phase-1 answer
processing, then update the row `inquiring → ready_for_processing` with a
status-guarded (CAS) update. Any raised error is caught by the outer handler,
which updates the row to status "failed" with the error in `output` and
re-raises. Keys the rebuilt Python dict does not set are read back by
`state.get(...) or default`, so they carry their falsy values here. Returns
the response (or raised error) together with the stored row after the call. -/
def submit_answers_without_processing (row : TaskRow) (answers : List (Nat × String))
    (intermediate_state : List (String × PyVal)) (meta : Option AnswerUnderstanding) :
    Except String String × TaskRow :=
  match validateIntermediateState intermediate_state with
  | none =>
    (Except.error ("答案提交失败: 中间状态数据校验失败"),
      { row with status := "failed", output := some ("中间状态数据校验失败") })
  | some v =>
    let state : P1State :=
      { task_id := row.id, user_id := row.user_id, scene := row.scene,
        user_input := row.user_input,
        provided_info := v.provided_info, missing_info := v.missing_info,
        audit_trail := v.audit_trail, total_cost := v.total_cost,
        collected_info := [],
        need_inquiry := false, info_sufficiency := 0, task_type := "",
        collaboration_mode := "", ai_a_role := "", ai_b_role := "", ai_a_output := "",
        ai_b_output := "", debate_rounds := 0, current_round := 0, max_rounds := 0,
        should_stop := false, stop_reason := "", final_output := "", error := "" }
    let newState := phase1_process_answers state answers meta
    if row.status = "inquiring" then
      (Except.ok ("ready_for_processing"),
        { row with
          status := "ready_for_processing",
          collected_info := newState.collected_info,
          processing_state := some newState })
    else
      (Except.error ("答案提交失败: 任务状态不正确或已被处理"),
        { row with status := "failed", output := some ("任务状态不正确或已被处理") })

/-- C7 (amended): a submission whose intermediate_state fails the whitelist
validation is rejected before any upstream call (the result is independent of
the meta oracle and of the answers) — but not before every side effect: the
outer exception handler then updates the stored task row to status "failed"
with the error recorded in output, so the row does not stay unchanged. -/
theorem submit_answers_validation_failure (row : TaskRow) (answers : List (Nat × String))
    (payload : List (String × PyVal)) (m1 m2 : Option AnswerUnderstanding)
    (h : validateIntermediateState payload = none) :
    submit_answers_without_processing row answers payload m1 =
      submit_answers_without_processing row answers payload m2 ∧
    (submit_answers_without_processing row answers payload m1).1 =
      Except.error ("答案提交失败: 中间状态数据校验失败") ∧
    (submit_answers_without_processing row answers payload m1).2 =
      { row with status := "failed", output := some ("中间状态数据校验失败") } := by
  unfold submit_answers_without_processing
  rw [h]
  exact ⟨rfl, rfl, rfl⟩

/-- A stored task in the inquiry stage. -/
def c7Row : TaskRow :=
  { id := "t1", user_id := "u1", scene := "topic-analysis", user_input := "demo",
    status := "inquiring", collected_info := [], processing_state := none, output := none }

/-- A client-echoed intermediate_state with a cost outside [0, 1000]. -/
def c7BadPayload : List (String × PyVal) := [(("total_cost"), PyVal.pNum 2000)]

theorem submit_answers_validation_failure_witness :
    validateIntermediateState c7BadPayload = none ∧
    (submit_answers_without_processing c7Row [] c7BadPayload none =
      submit_answers_without_processing c7Row [] c7BadPayload (some
        { extracted_info := [], summary := "", total_tokens := 0, cost := 0 }) ∧
    (submit_answers_without_processing c7Row [] c7BadPayload none).1 =
      Except.error ("答案提交失败: 中间状态数据校验失败") ∧
    (submit_answers_without_processing c7Row [] c7BadPayload none).2 =
      { c7Row with status := "failed", output := some ("中间状态数据校验失败") }) :=
  ⟨rfl, submit_answers_validation_failure c7Row [] c7BadPayload none
    (some { extracted_info := [], summary := "", total_tokens := 0, cost := 0 }) rfl⟩

/-- C7: the claim says a failing validation leaves the stored row unchanged;
in fact the exception handler flips the row's status from "inquiring" to
"failed", so the row after the call differs from the row before it. -/
theorem submit_validation_failure_mutates_row :
    validateIntermediateState c7BadPayload = none ∧
    (submit_answers_without_processing c7Row [] c7BadPayload none).2.status = "failed" ∧
    ¬ (submit_answers_without_processing c7Row [] c7BadPayload none).2 = c7Row := by
  refine ⟨rfl, rfl, fun hcontra => ?_⟩
  exact absurd (congrArg TaskRow.status hcontra) (by decide)

/-! ### UTF-8-safe truncation (`truncate_utf8`, task_service.py) and the
AI-message emission of `_process_task_async`. Text is modelled at the
code-point level: `utf8Encode` is `str.encode('utf-8')` and `utf8Decode` the
strict `bytes.decode('utf-8')` (`none` = UnicodeDecodeError; rejects
truncated sequences, stray continuation bytes, overlong forms, surrogates,
and values beyond U+10FFFF). -/

/-- A Unicode scalar value — what a Python `str` holds whenever
`encode('utf-8')` succeeds (lone surrogates raise there). -/
def isScalar (c : Nat) : Bool :=
  decide (c < 0x110000) && !(decide (0xD800 ≤ c) && decide (c ≤ 0xDFFF))

def validText (s : List Nat) : Bool := s.all isScalar

/-- UTF-8 encoding of one scalar value. -/
def encodeChar (c : Nat) : List Nat :=
  if c < 0x80 then [c]
  else if c < 0x800 then [0xC0 + c / 64, 0x80 + c % 64]
  else if c < 0x10000 then [0xE0 + c / 4096, 0x80 + c / 64 % 64, 0x80 + c % 64]
  else [0xF0 + c / 262144, 0x80 + c / 4096 % 64, 0x80 + c / 64 % 64, 0x80 + c % 64]

def utf8Encode (s : List Nat) : List Nat := (s.map encodeChar).flatten

def isContByte (b : Nat) : Bool := decide (0x80 ≤ b) && decide (b < 0xC0)

/-- Continuation of a 2-byte sequence with lead byte `b0`. -/
def decodeTail1 (b0 : Nat) : List Nat → Option (Nat × List Nat)
  | b1 :: rest2 =>
    if isContByte b1 then some ((b0 - 0xC0) * 64 + (b1 - 0x80), rest2) else none
  | [] => none

/-- Continuation of a 3-byte sequence with lead byte `b0` (overlong forms and
surrogates rejected). -/
def decodeTail2 (b0 : Nat) : List Nat → Option (Nat × List Nat)
  | b1 :: b2 :: rest3 =>
    if isContByte b1 && isContByte b2 &&
        decide (0x800 ≤ (b0 - 0xE0) * 4096 + (b1 - 0x80) * 64 + (b2 - 0x80)) &&
        isScalar ((b0 - 0xE0) * 4096 + (b1 - 0x80) * 64 + (b2 - 0x80)) then
      some ((b0 - 0xE0) * 4096 + (b1 - 0x80) * 64 + (b2 - 0x80), rest3)
    else none
  | _ => none

/-- Continuation of a 4-byte sequence with lead byte `b0` (overlong forms and
values beyond U+10FFFF rejected). -/
def decodeTail3 (b0 : Nat) : List Nat → Option (Nat × List Nat)
  | b1 :: b2 :: b3 :: rest4 =>
    if isContByte b1 && isContByte b2 && isContByte b3 &&
        decide (0x10000 ≤
          (b0 - 0xF0) * 262144 + (b1 - 0x80) * 4096 + (b2 - 0x80) * 64 + (b3 - 0x80)) &&
        decide ((b0 - 0xF0) * 262144 + (b1 - 0x80) * 4096 + (b2 - 0x80) * 64 + (b3 - 0x80) <
          0x110000) then
      some ((b0 - 0xF0) * 262144 + (b1 - 0x80) * 4096 + (b2 - 0x80) * 64 + (b3 - 0x80), rest4)
    else none
  | _ => none

/-- Decode one UTF-8 sequence starting at lead byte `b0`: the code point and
the remaining bytes, or `none` on malformed input. -/
def decodeOne (b0 : Nat) (rest : List Nat) : Option (Nat × List Nat) :=
  if b0 < 0x80 then some (b0, rest)
  else if b0 < 0xC2 then none
  else if b0 < 0xE0 then decodeTail1 b0 rest
  else if b0 < 0xF0 then decodeTail2 b0 rest
  else if b0 < 0xF5 then decodeTail3 b0 rest
  else none

/-- Strict UTF-8 decoding, fuelled by the number of code points still allowed;
each step consumes at least one byte, so fuel = byte length always suffices. -/
def utf8DecodeAux : Nat → List Nat → Option (List Nat)
  | _, [] => some []
  | 0, _ :: _ => none
  | fuel + 1, b0 :: rest =>
    match decodeOne b0 rest with
    | some cr => (utf8DecodeAux fuel cr.2).map (fun t => cr.1 :: t)
    | none => none

/-- Strict UTF-8 decoding into code points (`bytes.decode('utf-8')`). -/
def utf8Decode (bs : List Nat) : Option (List Nat) := utf8DecodeAux bs.length bs

theorem utf8Encode_cons (c : Nat) (t : List Nat) :
    utf8Encode (c :: t) = encodeChar c ++ utf8Encode t := by
  simp [utf8Encode]

theorem utf8Encode_append (a b : List Nat) :
    utf8Encode (a ++ b) = utf8Encode a ++ utf8Encode b := by
  simp [utf8Encode]

theorem validText_cons (c : Nat) (t : List Nat) :
    validText (c :: t) = (isScalar c && validText t) := by
  simp [validText]

theorem validText_append (a b : List Nat) :
    validText (a ++ b) = (validText a && validText b) := by
  simp [validText, List.all_append]

theorem encodeChar_length_pos (c : Nat) : 1 ≤ (encodeChar c).length := by
  unfold encodeChar
  split_ifs <;> simp

/-- Soundness of `decodeOne`: a decoded code point is a scalar value and
re-encodes to exactly the consumed bytes. -/
theorem decodeOne_sound (b0 : Nat) (rest : List Nat) (c : Nat) (rest2 : List Nat)
    (h : decodeOne b0 rest = some (c, rest2)) :
    isScalar c = true ∧ encodeChar c ++ rest2 = b0 :: rest := by
  unfold decodeOne at h
  split_ifs at h with hb1 hb2 hb3 hb4 hb5
  · have hh : b0 = c ∧ rest = rest2 := by simpa using h
    obtain ⟨rfl, rfl⟩ := hh
    refine ⟨?_, ?_⟩
    · simp only [isScalar, Bool.and_eq_true, decide_eq_true_eq, Bool.not_eq_true',
        Bool.and_eq_false_iff, decide_eq_false_iff_not, not_le]
      omega
    · rw [encodeChar, if_pos hb1]
      rfl
  · cases rest with
    | nil => exact absurd h (by simp [decodeTail1])
    | cons b1 r2 =>
      rw [decodeTail1] at h
      split_ifs at h with hcont
      · have hc : 0x80 ≤ b1 ∧ b1 < 0xC0 := by
          simpa [isContByte, Bool.and_eq_true, decide_eq_true_eq] using hcont
        have hh : (b0 - 0xC0) * 64 + (b1 - 0x80) = c ∧ r2 = rest2 := by simpa using h
        obtain ⟨rfl, rfl⟩ := hh
        refine ⟨?_, ?_⟩
        · simp only [isScalar, Bool.and_eq_true, decide_eq_true_eq, Bool.not_eq_true',
            Bool.and_eq_false_iff, decide_eq_false_iff_not, not_le]
          omega
        · have e1 : ¬ ((b0 - 0xC0) * 64 + (b1 - 0x80) < 0x80) := by omega
          have e2 : (b0 - 0xC0) * 64 + (b1 - 0x80) < 0x800 := by omega
          rw [encodeChar, if_neg e1, if_pos e2]
          have e3 : 0xC0 + ((b0 - 0xC0) * 64 + (b1 - 0x80)) / 64 = b0 := by omega
          have e4 : 0x80 + ((b0 - 0xC0) * 64 + (b1 - 0x80)) % 64 = b1 := by omega
          rw [e3, e4]
          rfl
  · match rest, h with
    | b1 :: b2 :: r3, h =>
      rw [decodeTail2] at h
      split_ifs at h with hcond
      · simp only [isContByte, Bool.and_eq_true, decide_eq_true_eq] at hcond
        obtain ⟨⟨⟨⟨hc1a, hc1b⟩, hc2a, hc2b⟩, hc3⟩, hc4⟩ := hcond
        have hh : (b0 - 0xE0) * 4096 + (b1 - 0x80) * 64 + (b2 - 0x80) = c ∧ r3 = rest2 := by
          simpa using h
        obtain ⟨rfl, rfl⟩ := hh
        refine ⟨hc4, ?_⟩
        · have e1 : ¬ ((b0 - 0xE0) * 4096 + (b1 - 0x80) * 64 + (b2 - 0x80) < 0x80) := by omega
          have e2 : ¬ ((b0 - 0xE0) * 4096 + (b1 - 0x80) * 64 + (b2 - 0x80) < 0x800) := by omega
          have e3 : (b0 - 0xE0) * 4096 + (b1 - 0x80) * 64 + (b2 - 0x80) < 0x10000 := by omega
          rw [encodeChar, if_neg e1, if_neg e2, if_pos e3]
          have e4 : 0xE0 + ((b0 - 0xE0) * 4096 + (b1 - 0x80) * 64 + (b2 - 0x80)) / 4096 =
              b0 := by omega
          have e5 : 0x80 + ((b0 - 0xE0) * 4096 + (b1 - 0x80) * 64 + (b2 - 0x80)) / 64 % 64 =
              b1 := by omega
          have e6 : 0x80 + ((b0 - 0xE0) * 4096 + (b1 - 0x80) * 64 + (b2 - 0x80)) % 64 =
              b2 := by omega
          rw [e4, e5, e6]
          rfl
    | [], h => exact absurd h (by simp [decodeTail2])
    | [b1], h => exact absurd h (by simp [decodeTail2])
  · match rest, h with
    | b1 :: b2 :: b3 :: r4, h =>
      rw [decodeTail3] at h
      split_ifs at h with hcond
      · simp only [isContByte, Bool.and_eq_true, decide_eq_true_eq] at hcond
        obtain ⟨⟨⟨⟨⟨hc1a, hc1b⟩, hc2a, hc2b⟩, hc3a, hc3b⟩, hc4⟩, hc5⟩ := hcond
        have hh : (b0 - 0xF0) * 262144 + (b1 - 0x80) * 4096 + (b2 - 0x80) * 64 + (b3 - 0x80) =
            c ∧ r4 = rest2 := by simpa using h
        obtain ⟨rfl, rfl⟩ := hh
        refine ⟨?_, ?_⟩
        · simp only [isScalar, Bool.and_eq_true, decide_eq_true_eq, Bool.not_eq_true',
            Bool.and_eq_false_iff, decide_eq_false_iff_not, not_le]
          omega
        · have e1 : ¬ ((b0 - 0xF0) * 262144 + (b1 - 0x80) * 4096 + (b2 - 0x80) * 64 +
              (b3 - 0x80) < 0x80) := by omega
          have e2 : ¬ ((b0 - 0xF0) * 262144 + (b1 - 0x80) * 4096 + (b2 - 0x80) * 64 +
              (b3 - 0x80) < 0x800) := by omega
          have e3 : ¬ ((b0 - 0xF0) * 262144 + (b1 - 0x80) * 4096 + (b2 - 0x80) * 64 +
              (b3 - 0x80) < 0x10000) := by omega
          rw [encodeChar, if_neg e1, if_neg e2, if_neg e3]
          have e4 : 0xF0 + ((b0 - 0xF0) * 262144 + (b1 - 0x80) * 4096 + (b2 - 0x80) * 64 +
              (b3 - 0x80)) / 262144 = b0 := by omega
          have e5 : 0x80 + ((b0 - 0xF0) * 262144 + (b1 - 0x80) * 4096 + (b2 - 0x80) * 64 +
              (b3 - 0x80)) / 4096 % 64 = b1 := by omega
          have e6 : 0x80 + ((b0 - 0xF0) * 262144 + (b1 - 0x80) * 4096 + (b2 - 0x80) * 64 +
              (b3 - 0x80)) / 64 % 64 = b2 := by omega
          have e7 : 0x80 + ((b0 - 0xF0) * 262144 + (b1 - 0x80) * 4096 + (b2 - 0x80) * 64 +
              (b3 - 0x80)) % 64 = b3 := by omega
          rw [e4, e5, e6, e7]
          rfl
    | [], h => exact absurd h (by simp [decodeTail3])
    | [b1], h => exact absurd h (by simp [decodeTail3])
    | [b1, b2], h => exact absurd h (by simp [decodeTail3])

/-- The helper `decodeOne` never grows the remaining byte list. -/
theorem decodeOne_length (b0 : Nat) (rest : List Nat) (cr : Nat × List Nat)
    (h : decodeOne b0 rest = some cr) : cr.2.length ≤ rest.length := by
  obtain ⟨hs, henc⟩ := decodeOne_sound b0 rest cr.1 cr.2 (by rw [h])
  have hlen := congrArg List.length henc
  simp only [List.length_append, List.length_cons] at hlen
  have := encodeChar_length_pos cr.1
  omega

/-- Completeness of `decodeOne`: the encoding of a scalar value decodes back
to it, leaving appended bytes untouched. -/
theorem decodeOne_encodeChar (c : Nat) (h : isScalar c = true) (bs : List Nat) :
    ∃ b0 tl, encodeChar c = b0 :: tl ∧ decodeOne b0 (tl ++ bs) = some (c, bs) := by
  have hsc : c < 0x110000 ∧ (c < 0xD800 ∨ 0xDFFF < c) := by
    simpa [isScalar, Bool.and_eq_true, not_and, Decidable.not_not] using h
  by_cases hc1 : c < 0x80
  · refine ⟨c, [], by rw [encodeChar, if_pos hc1], ?_⟩
    rw [decodeOne, if_pos hc1]
    rfl
  · by_cases hc2 : c < 0x800
    · refine ⟨0xC0 + c / 64, [0x80 + c % 64], by rw [encodeChar, if_neg hc1, if_pos hc2], ?_⟩
      have e1 : ¬ (0xC0 + c / 64 < 0x80) := by omega
      have e2 : ¬ (0xC0 + c / 64 < 0xC2) := by omega
      have e3 : 0xC0 + c / 64 < 0xE0 := by omega
      rw [decodeOne, if_neg e1, if_neg e2, if_pos e3]
      show decodeTail1 _ ((0x80 + c % 64) :: bs) = _
      rw [decodeTail1]
      have e4 : isContByte (0x80 + c % 64) = true := by
        simp only [isContByte, Bool.and_eq_true, decide_eq_true_eq]
        omega
      rw [if_pos e4]
      have e5 : (0xC0 + c / 64 - 0xC0) * 64 + (0x80 + c % 64 - 0x80) = c := by omega
      rw [e5]
    · by_cases hc3 : c < 0x10000
      · refine ⟨0xE0 + c / 4096, [0x80 + c / 64 % 64, 0x80 + c % 64],
          by rw [encodeChar, if_neg hc1, if_neg hc2, if_pos hc3], ?_⟩
        have e1 : ¬ (0xE0 + c / 4096 < 0x80) := by omega
        have e2 : ¬ (0xE0 + c / 4096 < 0xC2) := by omega
        have e3 : ¬ (0xE0 + c / 4096 < 0xE0) := by omega
        have e4 : 0xE0 + c / 4096 < 0xF0 := by omega
        rw [decodeOne, if_neg e1, if_neg e2, if_neg e3, if_pos e4]
        show decodeTail2 _ ((0x80 + c / 64 % 64) :: (0x80 + c % 64) :: bs) = _
        rw [decodeTail2]
        have e5 : (0xE0 + c / 4096 - 0xE0) * 4096 + (0x80 + c / 64 % 64 - 0x80) * 64 +
            (0x80 + c % 64 - 0x80) = c := by omega
        rw [e5]
        have hA : isContByte (0x80 + c / 64 % 64) = true := by
          simp only [isContByte, Bool.and_eq_true, decide_eq_true_eq]
          omega
        have hB : isContByte (0x80 + c % 64) = true := by
          simp only [isContByte, Bool.and_eq_true, decide_eq_true_eq]
          omega
        have hC : decide (0x800 ≤ c) = true := by
          simp only [decide_eq_true_eq]
          omega
        rw [hA, hB, hC, h]
        rfl
      · refine ⟨0xF0 + c / 262144, [0x80 + c / 4096 % 64, 0x80 + c / 64 % 64, 0x80 + c % 64],
          by rw [encodeChar, if_neg hc1, if_neg hc2, if_neg hc3], ?_⟩
        have e1 : ¬ (0xF0 + c / 262144 < 0x80) := by omega
        have e2 : ¬ (0xF0 + c / 262144 < 0xC2) := by omega
        have e3 : ¬ (0xF0 + c / 262144 < 0xE0) := by omega
        have e4 : ¬ (0xF0 + c / 262144 < 0xF0) := by omega
        have e5 : 0xF0 + c / 262144 < 0xF5 := by omega
        rw [decodeOne, if_neg e1, if_neg e2, if_neg e3, if_neg e4, if_pos e5]
        show decodeTail3 _
          ((0x80 + c / 4096 % 64) :: (0x80 + c / 64 % 64) :: (0x80 + c % 64) :: bs) = _
        rw [decodeTail3]
        have e6 : (0xF0 + c / 262144 - 0xF0) * 262144 + (0x80 + c / 4096 % 64 - 0x80) * 4096 +
            (0x80 + c / 64 % 64 - 0x80) * 64 + (0x80 + c % 64 - 0x80) = c := by omega
        rw [e6]
        have hA : isContByte (0x80 + c / 4096 % 64) = true := by
          simp only [isContByte, Bool.and_eq_true, decide_eq_true_eq]
          omega
        have hB : isContByte (0x80 + c / 64 % 64) = true := by
          simp only [isContByte, Bool.and_eq_true, decide_eq_true_eq]
          omega
        have hC : isContByte (0x80 + c % 64) = true := by
          simp only [isContByte, Bool.and_eq_true, decide_eq_true_eq]
          omega
        have hD : decide (0x10000 ≤ c) = true := by
          simp only [decide_eq_true_eq]
          omega
        have hE : decide (c < 0x110000) = true := by
          simp only [decide_eq_true_eq]
          omega
        rw [hA, hB, hC, hD, hE]
        rfl

/-- The fuel does not matter once it covers the byte length. -/
theorem utf8DecodeAux_fuel_irrel :
    ∀ (fuel fuel2 : Nat) (bs : List Nat), bs.length ≤ fuel → bs.length ≤ fuel2 →
      utf8DecodeAux fuel bs = utf8DecodeAux fuel2 bs := by
  intro fuel
  induction fuel with
  | zero =>
    intro fuel2 bs h h2
    cases bs with
    | nil => cases fuel2 <;> rfl
    | cons b r => simp at h
  | succ fuel ih =>
    intro fuel2 bs h h2
    cases bs with
    | nil => cases fuel2 <;> rfl
    | cons b0 rest =>
      cases fuel2 with
      | zero => simp at h2
      | succ fuel2 =>
        rw [utf8DecodeAux, utf8DecodeAux]
        cases hd : decodeOne b0 rest with
        | none => rfl
        | some cr =>
          have hl := decodeOne_length b0 rest cr hd
          simp only [List.length_cons] at h h2
          dsimp only
          rw [ih fuel2 cr.2 (by omega) (by omega)]

/-- Encoding a valid text and decoding it back is the identity. -/
theorem utf8Decode_utf8Encode (s : List Nat) (h : validText s = true) :
    utf8Decode (utf8Encode s) = some s := by
  suffices hgen : ∀ (fuel : Nat) (s : List Nat), validText s = true →
      (utf8Encode s).length ≤ fuel → utf8DecodeAux fuel (utf8Encode s) = some s by
    exact hgen (utf8Encode s).length s h le_rfl
  intro fuel
  induction fuel with
  | zero =>
    intro s hs hl
    cases s with
    | nil => rfl
    | cons c t =>
      rw [utf8Encode_cons] at hl
      have := encodeChar_length_pos c
      simp only [List.length_append] at hl
      omega
  | succ fuel ih =>
    intro s hs hl
    cases s with
    | nil => rfl
    | cons c t =>
      rw [validText_cons, Bool.and_eq_true] at hs
      obtain ⟨b0, tl, he, hd⟩ := decodeOne_encodeChar c hs.1 (utf8Encode t)
      rw [utf8Encode_cons, he]
      show utf8DecodeAux (fuel + 1) (b0 :: (tl ++ utf8Encode t)) = _
      rw [utf8DecodeAux, hd]
      dsimp only
      have hlen : (utf8Encode t).length ≤ fuel := by
        rw [utf8Encode_cons, he] at hl
        simp only [List.cons_append, List.length_cons, List.length_append] at hl
        omega
      rw [ih t hs.2 hlen]
      rfl

/-- Decoding success means the bytes are exactly the encoding of a valid
text. -/
theorem utf8Decode_sound (bs : List Nat) (t : List Nat) (h : utf8Decode bs = some t) :
    utf8Encode t = bs ∧ validText t = true := by
  suffices hgen : ∀ (fuel : Nat) (bs : List Nat) (t : List Nat),
      utf8DecodeAux fuel bs = some t → utf8Encode t = bs ∧ validText t = true by
    exact hgen bs.length bs t h
  intro fuel
  induction fuel with
  | zero =>
    intro bs t h
    cases bs with
    | nil =>
      have ht : ([] : List Nat) = t := by injection h
      subst ht
      exact ⟨rfl, rfl⟩
    | cons b r =>
      rw [show utf8DecodeAux 0 (b :: r) = none from rfl] at h
      cases h
  | succ fuel ih =>
    intro bs t h
    cases bs with
    | nil =>
      have ht : ([] : List Nat) = t := by injection h
      subst ht
      exact ⟨rfl, rfl⟩
    | cons b0 rest =>
      rw [utf8DecodeAux] at h
      cases hd : decodeOne b0 rest with
      | none =>
        rw [hd] at h
        cases h
      | some cr =>
        rw [hd] at h
        dsimp only at h
        rw [Option.map_eq_some'] at h
        obtain ⟨t2, hrec, rfl⟩ := h
        obtain ⟨he2, hv2⟩ := ih cr.2 t2 hrec
        obtain ⟨hsc, henc⟩ := decodeOne_sound b0 rest cr.1 cr.2 (by rw [hd])
        refine ⟨?_, ?_⟩
        · rw [utf8Encode_cons, he2, henc]
        · rw [validText_cons, hsc, hv2]
          rfl

/-- The byte-dropping loop of `truncate_utf8` (`while truncated: try decode
except UnicodeDecodeError: drop the last byte`). The supplied fuel strictly
exceeds the byte count, so it never cuts the loop short. -/
def dropLoopAux : Nat → List Nat → List Nat
  | 0, _ => []
  | _, [] => []
  | fuel + 1, bs =>
    match utf8Decode bs with
    | some t => t
    | none => dropLoopAux fuel bs.dropLast

/-- Model of `truncate_utf8(text, max_bytes)` of task_service.py: empty text gives "";
if the encoding fits, the text is returned unchanged; otherwise the first
`max_bytes` bytes are kept and trailing bytes are dropped until they decode. -/
def truncate_utf8 (text : List Nat) (max_bytes : Nat) : List Nat :=
  if text = [] then []
  else if (utf8Encode text).length ≤ max_bytes then text
  else dropLoopAux (((utf8Encode text).take max_bytes).length + 1)
    ((utf8Encode text).take max_bytes)

/-- The AI-message content emitted by the collaboration loop of
`_process_task_async`: `truncate_utf8(output, 500) + "..."` (three ASCII
dots). -/
def emittedAiMessage (output : List Nat) : List Nat :=
  truncate_utf8 output 500 ++ [46, 46, 46]

theorem dropLoopAux_spec : ∀ (fuel : Nat) (bs : List Nat), bs.length < fuel →
    (utf8Encode (dropLoopAux fuel bs)).length ≤ bs.length ∧
    validText (dropLoopAux fuel bs) = true ∧
    utf8Decode (utf8Encode (dropLoopAux fuel bs)) = some (dropLoopAux fuel bs) := by
  intro fuel
  induction fuel with
  | zero =>
    intro bs h
    exact absurd h (Nat.not_lt_zero _)
  | succ fuel ih =>
    intro bs h
    cases bs with
    | nil => exact ⟨Nat.le_refl 0, rfl, rfl⟩
    | cons b r =>
      cases hd : utf8Decode (b :: r) with
      | some t =>
        have hred : dropLoopAux (fuel + 1) (b :: r) = t := by
          show (match utf8Decode (b :: r) with
            | some t => t
            | none => dropLoopAux fuel (b :: r).dropLast) = t
          rw [hd]
        obtain ⟨he, hvt⟩ := utf8Decode_sound (b :: r) t hd
        rw [hred]
        refine ⟨?_, hvt, ?_⟩
        · rw [he]
        · rw [he, hd]
      | none =>
        have hred : dropLoopAux (fuel + 1) (b :: r) = dropLoopAux fuel (b :: r).dropLast := by
          show (match utf8Decode (b :: r) with
            | some t => t
            | none => dropLoopAux fuel (b :: r).dropLast) = _
          rw [hd]
        rw [hred]
        have hlen : (b :: r).dropLast.length < fuel := by
          simp only [List.length_dropLast, List.length_cons] at *
          omega
        obtain ⟨h1, h2, h3⟩ := ih (b :: r).dropLast hlen
        refine ⟨le_trans h1 ?_, h2, h3⟩
        simp only [List.length_dropLast, List.length_cons]
        omega

/-- The truncation keeps at most `max_bytes` bytes, stays valid text, and its
encoding decodes without error. -/
theorem truncate_utf8_spec (text : List Nat) (max_bytes : Nat)
    (hv : validText text = true) :
    (utf8Encode (truncate_utf8 text max_bytes)).length ≤ max_bytes ∧
    validText (truncate_utf8 text max_bytes) = true ∧
    utf8Decode (utf8Encode (truncate_utf8 text max_bytes)) =
      some (truncate_utf8 text max_bytes) := by
  unfold truncate_utf8
  split_ifs with ht hfit
  · exact ⟨Nat.zero_le _, rfl, rfl⟩
  · exact ⟨hfit, hv, utf8Decode_utf8Encode text hv⟩
  · have hsp := dropLoopAux_spec (((utf8Encode text).take max_bytes).length + 1)
      ((utf8Encode text).take max_bytes) (Nat.lt_succ_self _)
    refine ⟨le_trans hsp.1 ?_, hsp.2.1, hsp.2.2⟩
    simp only [List.length_take]
    exact min_le_left _ _

/-- C8 (amended): `truncate_utf8(output, 500)` is at most 500 bytes and is cut
on a UTF-8 code-point boundary (its encoding decodes without error) — but the
content the collaboration loop actually emits is that truncation plus a 3-byte
"..." suffix, so the emitted message is bounded by 503 bytes, not 500 (it is
still valid UTF-8). -/
theorem ai_message_truncation_spec (output : List Nat) (hv : validText output = true) :
    (utf8Encode (truncate_utf8 output 500)).length ≤ 500 ∧
    validText (truncate_utf8 output 500) = true ∧
    utf8Decode (utf8Encode (truncate_utf8 output 500)) = some (truncate_utf8 output 500) ∧
    emittedAiMessage output = truncate_utf8 output 500 ++ [46, 46, 46] ∧
    (utf8Encode (emittedAiMessage output)).length ≤ 503 ∧
    utf8Decode (utf8Encode (emittedAiMessage output)) = some (emittedAiMessage output) := by
  obtain ⟨h1, h2, h3⟩ := truncate_utf8_spec output 500 hv
  refine ⟨h1, h2, h3, rfl, ?_, ?_⟩
  · rw [emittedAiMessage, utf8Encode_append]
    simp only [List.length_append]
    have h46 : (utf8Encode [46, 46, 46]).length = 3 := rfl
    omega
  · apply utf8Decode_utf8Encode
    rw [emittedAiMessage, validText_append, h2]
    rfl

theorem ai_message_truncation_spec_witness :
    validText [0x4E2D] = true ∧
    ((utf8Encode (truncate_utf8 [0x4E2D] 500)).length ≤ 500 ∧
    validText (truncate_utf8 [0x4E2D] 500) = true ∧
    utf8Decode (utf8Encode (truncate_utf8 [0x4E2D] 500)) = some (truncate_utf8 [0x4E2D] 500) ∧
    emittedAiMessage [0x4E2D] = truncate_utf8 [0x4E2D] 500 ++ [46, 46, 46] ∧
    (utf8Encode (emittedAiMessage [0x4E2D])).length ≤ 503 ∧
    utf8Decode (utf8Encode (emittedAiMessage [0x4E2D])) = some (emittedAiMessage [0x4E2D])) :=
  ⟨by decide, ai_message_truncation_spec [0x4E2D] (by decide)⟩

/-- 200 copies of U+4E2D ("中", 3 UTF-8 bytes each): a 600-byte message. -/
def sixHundredByteMessage : List Nat := List.replicate 200 0x4E2D

set_option maxRecDepth 100000 in
/-- C8: for a 600-byte message of multi-byte code points the truncated part is
498 bytes (500 would split a code point), but the emitted content appends
"..." and is 501 bytes — the claim's 500-byte bound on the emitted content is
false. -/
theorem emitted_ai_message_exceeds_500_bytes :
    (utf8Encode sixHundredByteMessage).length = 600 ∧
    (utf8Encode (truncate_utf8 sixHundredByteMessage 500)).length = 498 ∧
    (utf8Encode (emittedAiMessage sixHundredByteMessage)).length = 501 ∧
    ¬ (utf8Encode (emittedAiMessage sixHundredByteMessage)).length ≤ 500 := by
  refine ⟨by decide, by decide, by decide, by decide⟩

end JexAgent
